import Mathlib

/-!
Finance Learning API: the request handlers of `backend/index.js`.

The service is an Express application whose handlers read the request, issue calls on
a shared data-store handle and answer with JSON.  The embedding keeps the three parts apart:

* JavaScript values and the operators the handlers apply to them (truthiness, `||`, `??`,
  `Array.isArray`, `includes`);
* a handler is a `Prog`: a response, or a data-store call followed by what the handler does
  with its result (the resolved rows, or the thrown error that the `catch` block receives);
* the data store is a parameter (`Db`): any state type with a function answering calls.
  A call that throws, for whatever reason, is a call answered with an error, and the handler
  continues in its `catch` block.  `pgDb` is a reference store that follows the text of the
  statements.

`console.log` and `console.error` write to the server log only and are left out.
-/

namespace FinanceApi

/-! ## JavaScript values -/

/-- A JavaScript value as the handlers see it: the JSON values, `undefined`, and `Date`.
Numbers are the integers. -/
inductive JsVal where
  | undefined
  | null
  | bool (b : Bool)
  | num (n : Int)
  | str (s : String)
  | date (ms : Int)
  | arr (xs : List JsVal)
  | obj (fields : List (String × JsVal))

/-- A plain object: its own properties in insertion order; the first binding of a name counts. -/
abbrev JsObj := List (String × JsVal)

/-- Property read `o.k` (and the destructuring `const { k } = o`): `undefined` when absent. -/
def prop (o : JsObj) (k : String) : JsVal :=
  match o.lookup k with
  | some v => v
  | none => JsVal.undefined

/-- Property write `o.k = v`, also the entry `k: v` after a spread `{ ...o, k: v }`:
an existing property keeps its place, a new one goes last. -/
def setProp : JsObj → String → JsVal → JsObj
  | [], k, v => [(k, v)]
  | (k', v') :: rest, k, v =>
    if k' = k then (k, v) :: rest else (k', v') :: setProp rest k v

/-- ToBoolean: `undefined`, `null`, `false`, `0` and `''` are falsy, all else is truthy. -/
def JsVal.truthy : JsVal → Bool
  | .undefined => false
  | .null => false
  | .bool b => b
  | .num n => decide (n ≠ 0)
  | .str s => decide (s ≠ "")
  | .date _ => true
  | .arr _ => true
  | .obj _ => true

/-- The values `??` skips: `undefined` and `null`. -/
def JsVal.nullish : JsVal → Bool
  | .undefined => true
  | .null => true
  | _ => false

/-- The operator `a || b`. -/
def jsOr (a b : JsVal) : JsVal := if a.truthy then a else b

/-- The operator `a ?? b`. -/
def jsCoalesce (a b : JsVal) : JsVal := if a.nullish then b else a

/-- The test `Array.isArray(v)`. -/
def isArray : JsVal → Bool
  | .arr _ => true
  | _ => false

/-- The test `xs.includes(v)` for an array literal of strings: only a string can be found. -/
def includesStr (xs : List String) : JsVal → Bool
  | .str s => xs.contains s
  | _ => false

/-- The test `v !== s` against a string literal. -/
def strictNeStr (v : JsVal) (s : String) : Bool :=
  match v with
  | .str t => decide (t ≠ s)
  | _ => true

/-- Optional chaining on the first row, `rows[0]?.k`. -/
def firstProp (rows : List JsObj) (k : String) : JsVal :=
  match rows with
  | [] => JsVal.undefined
  | r :: _ => prop r k

/-- An array of row objects as a value. -/
def rowsValue (rows : List JsObj) : JsVal := JsVal.arr (rows.map JsVal.obj)

/-! ## Requests, responses, the clock -/

/-- The parts of an Express request the handlers read.  `express.json()` has parsed the body
into an object (the empty object when the request carries none). -/
structure Req where
  params : JsObj := []
  query : JsObj := []
  body : JsObj := []

/-- What the handler hands to `res.json` (a value) or `res.send` (a text). -/
inductive Body where
  | json (v : JsVal)
  | text (s : String)

/-- The response: status code and body. -/
structure Response where
  status : Nat
  body : Body

/-- Each `new Date()` of a handler run reads the clock: `date k` is the k-th reading (from 0),
`iso` is `Date.prototype.toISOString`. -/
structure Clock where
  date : Nat → Int
  iso : Int → String

/-- The call `res.json(v)`: status 200. -/
def ok (v : JsVal) : Response := ⟨200, Body.json v⟩

/-- The call `res.status(code).json({ error: msg })`. -/
def errorResponse (code : Nat) (msg : String) : Response :=
  ⟨code, Body.json (JsVal.obj [("error", JsVal.str msg)])⟩

/-! ## Data-store calls and handler programs -/

/-- A call on the handle `req.db`. -/
inductive DbCall where
  | query (sql : String) (params : List JsVal)
  | listCollections
  | find (collection : String) (filter : JsObj) (sort : JsObj)

/-- The value a rejected call throws; the handlers read only its `message`. -/
structure Err where
  message : JsVal

/-- A handler run: it ends with a response, or awaits a data-store call and continues with the
rows it resolved to, or with the error it threw (the `catch` block). -/
inductive Prog where
  | done (r : Response)
  | call (c : DbCall) (k : Except Err (List JsObj) → Prog)

/-- The data-store handle: the database name and how a call is answered in a store state. -/
structure Db (σ : Type) where
  databaseName : JsVal
  exec : σ → DbCall → Except Err (List JsObj) × σ

/-- What a request leaves behind: the response, the store, and the calls made in order. -/
structure Outcome (σ : Type) where
  response : Response
  store : σ
  calls : List DbCall

/-- Run a handler against a store. -/
def Prog.run {σ : Type} (db : Db σ) : Prog → σ → Outcome σ
  | .done r, s => ⟨r, s, []⟩
  | .call c k, s =>
    let out := Prog.run db (k (db.exec s c).1) (db.exec s c).2
    ⟨out.response, out.store, c :: out.calls⟩

/-- The number of data-store calls a run makes. -/
def Prog.callCount {σ : Type} (db : Db σ) (p : Prog) (s : σ) : Nat :=
  (p.run db s).calls.length

/-! ## The handlers -/

/-- Handler of `GET /`. -/
def getRoot : Response := ⟨200, Body.text "Finance Learning API Running"⟩

/-- Handler of `GET /health`. -/
def getHealth (clk : Clock) : Response :=
  ok (JsVal.obj [
    ("status", JsVal.str "ok"),
    ("timestamp", JsVal.str (clk.iso (clk.date 0))),
    ("message", JsVal.str "Server is running")])

/-- Handler of `GET /test`. -/
def getTest (databaseName : JsVal) (clk : Clock) : Prog :=
  Prog.call DbCall.listCollections fun
    | .ok collections =>
      Prog.done (ok (JsVal.obj [
        ("message", JsVal.str "Database connection successful"),
        ("database", databaseName),
        ("collections", JsVal.arr (collections.map fun c => prop c "name")),
        ("timestamp", JsVal.str (clk.iso (clk.date 0)))]))
    | .error error =>
      Prog.done ⟨500, Body.json (JsVal.obj [
        ("error", JsVal.str "Database connection failed"),
        ("message", error.message)])⟩

/-- Handler of `GET /modules`. -/
def getModules (req : Req) : Prog :=
  let category := prop req.query "category"
  let filter : JsObj :=
    if category.truthy && strictNeStr category "all" then [("category", category)] else []
  Prog.call (DbCall.find "modules" filter [("created_at", JsVal.num (-1))]) fun
    | .ok modules => Prog.done (ok (rowsValue modules))
    | .error _ => Prog.done (errorResponse 500 "Failed to fetch modules")

/-- Handler of `GET /categories`. -/
def getCategories : Prog :=
  Prog.call (DbCall.query "SELECT DISTINCT category FROM modules" []) fun
    | .ok rows => Prog.done (ok (rowsValue rows))
    | .error _ => Prog.done (errorResponse 500 "Failed to fetch categories")

/-- Handler of `GET /modules/:moduleId/chapters`. -/
def getModuleChapters (req : Req) : Prog :=
  let moduleId := prop req.params "moduleId"
  Prog.call (DbCall.query "SELECT * FROM chapters WHERE module_id = $1" [moduleId]) fun
    | .ok rows => Prog.done (ok (rowsValue rows))
    | .error _ => Prog.done (errorResponse 500 "Failed to fetch chapters")

/-- Handler of `GET /chapters`. -/
def getChapters : Prog :=
  Prog.call (DbCall.query "SELECT * FROM chapters" []) fun
    | .ok rows => Prog.done (ok (rowsValue rows))
    | .error _ => Prog.done (errorResponse 500 "Failed to fetch chapters")

/-- The object `{ ...referencedChapter.rows[0], moduleTitle: ..., moduleCategory: ... }` of
`GET /chapters/:id`. -/
def referencedChapterData (referenced : JsObj) (moduleRows : List JsObj) : JsObj :=
  setProp
    (setProp referenced "moduleTitle"
      (jsOr (firstProp moduleRows "title") (JsVal.str "Unknown Module")))
    "moduleCategory" (jsOr (firstProp moduleRows "category") (JsVal.str "General"))

/-- Handler of `GET /chapters/:id`. -/
def getChapterById (req : Req) : Prog :=
  let id := prop req.params "id"
  Prog.call (DbCall.query "SELECT * FROM chapters WHERE id = $1" [id]) fun
    | .error _ => Prog.done (errorResponse 500 "Failed to fetch chapter")
    | .ok [] => Prog.done (errorResponse 404 "Chapter not found")
    | .ok (chapter :: _) =>
      if (prop chapter "referenced_chapter").truthy then
        Prog.call (DbCall.query "SELECT * FROM chapters WHERE id = $1"
            [prop chapter "referenced_chapter"]) fun
          | .error _ => Prog.done (errorResponse 500 "Failed to fetch chapter")
          | .ok [] => Prog.done (ok (JsVal.obj chapter))
          | .ok (referenced :: _) =>
            Prog.call (DbCall.query "SELECT * FROM modules WHERE id = $1"
                [prop referenced "module_id"]) fun
              | .error _ => Prog.done (errorResponse 500 "Failed to fetch chapter")
              | .ok moduleRows =>
                Prog.done (ok (JsVal.obj (setProp chapter "referencedChapterData"
                  (JsVal.obj (referencedChapterData referenced moduleRows)))))
      else
        Prog.done (ok (JsVal.obj chapter))

/-- Handler of `GET /notes`. -/
def getNotes : Prog :=
  Prog.call (DbCall.query "SELECT * FROM notes" []) fun
    | .ok rows => Prog.done (ok (rowsValue rows))
    | .error _ => Prog.done (errorResponse 500 "Failed to fetch notes")

/-- Handler of `GET /notes/user/:userId`. -/
def getUserNotes (req : Req) : Prog :=
  let userId := prop req.params "userId"
  Prog.call (DbCall.query
      "SELECT * FROM notes WHERE user_id = $1 ORDER BY created_at DESC" [userId]) fun
    | .ok rows => Prog.done (ok (rowsValue rows))
    | .error _ => Prog.done (errorResponse 500 "Failed to fetch user notes")

/-- The object `note` that `POST /notes` builds from the body. -/
def noteOf (body : JsObj) (clk : Clock) : JsObj := [
  ("user_id", prop body "userId"),
  ("module_id", prop body "moduleId"),
  ("chapter_id", prop body "chapterId"),
  ("title", prop body "title"),
  ("topic", prop body "topic"),
  ("content", jsCoalesce (prop body "content") (jsCoalesce (prop body "text") (JsVal.str ""))),
  ("tags", jsOr (prop body "tags") (JsVal.arr [])),
  ("created_at", JsVal.date (clk.date 0)),
  ("updated_at", JsVal.date (clk.date 1))]

/-- Handler of `POST /notes`. -/
def postNotes (req : Req) (clk : Clock) : Prog :=
  let note := noteOf req.body clk
  Prog.call (DbCall.query
      "INSERT INTO notes (user_id, module_id, chapter_id, title, topic, content, tags, created_at, updated_at) VALUES ($1, $2, $3, $4, $5, $6, $7, $8, $9) RETURNING *"
      [prop note "user_id", prop note "module_id", prop note "chapter_id", prop note "title",
       prop note "topic", prop note "content", prop note "tags", prop note "created_at",
       prop note "updated_at"]) fun
    | .ok (row :: _) => Prog.done (ok (JsVal.obj (setProp note "id" (prop row "id"))))
    | .ok [] => Prog.done (errorResponse 500 "Failed to create note")
    | .error _ => Prog.done (errorResponse 500 "Failed to create note")

/-- The object `updateData` that `PUT /notes/:noteId` builds from the body. -/
def updateDataOf (body : JsObj) (clk : Clock) : JsObj := [
  ("topic", prop body "topic"),
  ("content", jsCoalesce (prop body "content") (jsCoalesce (prop body "text") (JsVal.str ""))),
  ("tags", jsOr (prop body "tags") (JsVal.arr [])),
  ("updated_at", JsVal.date (clk.date 0))]

/-- Handler of `PUT /notes/:noteId`. -/
def putNote (req : Req) (clk : Clock) : Prog :=
  let noteId := prop req.params "noteId"
  let updateData := updateDataOf req.body clk
  Prog.call (DbCall.query
      "UPDATE notes SET topic = $1, content = $2, tags = $3, updated_at = $4 WHERE id = $5"
      [prop updateData "topic", prop updateData "content", prop updateData "tags",
       prop updateData "updated_at", noteId]) fun
    | .ok _ => Prog.done (ok (JsVal.obj [
        ("success", JsVal.bool true), ("message", JsVal.str "Note updated")]))
    | .error _ => Prog.done (errorResponse 500 "Failed to update note")

/-- Handler of `DELETE /notes/:noteId`. -/
def deleteNote (req : Req) : Prog :=
  let noteId := prop req.params "noteId"
  Prog.call (DbCall.query "DELETE FROM notes WHERE id = $1" [noteId]) fun
    | .ok _ => Prog.done (ok (JsVal.obj [
        ("success", JsVal.bool true), ("message", JsVal.str "Note deleted")]))
    | .error _ => Prog.done (errorResponse 500 "Failed to delete note")

/-- Handler of `GET /bookmarks`.  The object `query` it fills is never read. -/
def getBookmarks (req : Req) : Prog :=
  let userId := prop req.query "userId"
  Prog.call (DbCall.query
      "SELECT * FROM bookmarks WHERE user_id = $1 ORDER BY created_at DESC" [userId]) fun
    | .ok rows => Prog.done (ok (rowsValue rows))
    | .error _ => Prog.done (errorResponse 500 "Failed to fetch bookmarks")

/-- The object `bookmark` that `POST /bookmarks` builds from the body. -/
def bookmarkOf (body : JsObj) (clk : Clock) : JsObj := [
  ("chapter_id", prop body "chapter_id"),
  ("title", prop body "title"),
  ("module_id", prop body "module_id"),
  ("module_title", prop body "module_title"),
  ("chapter_title", prop body "chapter_title"),
  ("category", prop body "category"),
  ("tags", jsOr (prop body "tags") (JsVal.arr [])),
  ("notes", prop body "notes"),
  ("is_important", jsOr (prop body "is_important") (JsVal.bool false)),
  ("user_id", prop body "user_id"),
  ("created_at", JsVal.date (clk.date 0))]

/-- Handler of `POST /bookmarks`. -/
def postBookmarks (req : Req) (clk : Clock) : Prog :=
  let bookmark := bookmarkOf req.body clk
  Prog.call (DbCall.query
      "INSERT INTO bookmarks (chapter_id, title, module_id, module_title, chapter_title, category, tags, notes, is_important, user_id, created_at) VALUES ($1, $2, $3, $4, $5, $6, $7, $8, $9, $10, $11) RETURNING *"
      [prop bookmark "chapter_id", prop bookmark "title", prop bookmark "module_id",
       prop bookmark "module_title", prop bookmark "chapter_title", prop bookmark "category",
       prop bookmark "tags", prop bookmark "notes", prop bookmark "is_important",
       prop bookmark "user_id", prop bookmark "created_at"]) fun
    | .ok (row :: _) => Prog.done (ok (JsVal.obj (setProp bookmark "id" (prop row "id"))))
    | .ok [] => Prog.done (errorResponse 500 "Failed to add bookmark")
    | .error _ => Prog.done (errorResponse 500 "Failed to add bookmark")

/-- Handler of `DELETE /bookmarks/:bookmarkId`. -/
def deleteBookmark (req : Req) : Prog :=
  let bookmarkId := prop req.params "bookmarkId"
  Prog.call (DbCall.query "DELETE FROM bookmarks WHERE id = $1" [bookmarkId]) fun
    | .ok _ => Prog.done (ok (JsVal.obj [
        ("success", JsVal.bool true), ("message", JsVal.str "Bookmark removed")]))
    | .error _ => Prog.done (errorResponse 500 "Failed to remove bookmark")

/-- Handler of `GET /reviews`. -/
def getReviews : Prog :=
  Prog.call (DbCall.query "SELECT * FROM reviews ORDER BY created_at DESC" []) fun
    | .ok rows => Prog.done (ok (rowsValue rows))
    | .error _ => Prog.done (errorResponse 500 "Failed to fetch reviews")

/-- The object `review` that `POST /reviews` builds from the body. -/
def reviewOf (body : JsObj) (clk : Clock) : JsObj := [
  ("user_id", prop body "user_id"),
  ("user_name", prop body "user_name"),
  ("text", prop body "text"),
  ("rating", prop body "rating"),
  ("created_at", JsVal.date (clk.date 0))]

/-- Handler of `POST /reviews`. -/
def postReviews (req : Req) (clk : Clock) : Prog :=
  if !(prop req.body "user_id").truthy || !(prop req.body "user_name").truthy
      || !(prop req.body "text").truthy || !(prop req.body "rating").truthy then
    Prog.done (errorResponse 400 "Missing user_id, user_name, text, or rating")
  else
    let review := reviewOf req.body clk
    Prog.call (DbCall.query
        "INSERT INTO reviews (user_id, user_name, text, rating, created_at) VALUES ($1, $2, $3, $4, $5) RETURNING *"
        [prop review "user_id", prop review "user_name", prop review "text",
         prop review "rating", prop review "created_at"]) fun
      | .ok (row :: _) => Prog.done (ok (JsVal.obj (setProp review "id" (prop row "id"))))
      | .ok [] => Prog.done (errorResponse 500 "Failed to add review")
      | .error _ => Prog.done (errorResponse 500 "Failed to add review")

/-- The object `userDoc` that `POST /user/onboarding` builds from the body. -/
def userDocOf (body : JsObj) (clk : Clock) : JsObj := [
  ("user_id", prop body "user_id"),
  ("age", prop body "age"),
  ("domains", prop body "domains"),
  ("experience", prop body "experience"),
  ("onboarding_completed", JsVal.bool true),
  ("updated_at", JsVal.date (clk.date 0))]

/-- Handler of `POST /user/onboarding`. -/
def postUserOnboarding (req : Req) (clk : Clock) : Prog :=
  if !(prop req.body "user_id").truthy || !(prop req.body "age").truthy
      || !(prop req.body "domains").truthy || !(prop req.body "experience").truthy then
    Prog.done (errorResponse 400 "Missing user_id, age, domains, or experience")
  else
    let userDoc := userDocOf req.body clk
    Prog.call (DbCall.query
        "INSERT INTO users (user_id, age, domains, experience, onboarding_completed, updated_at) VALUES ($1, $2, $3, $4, $5, $6) ON CONFLICT (user_id) DO UPDATE SET age = $2, domains = $3, experience = $4, onboarding_completed = $5, updated_at = $6"
        [prop userDoc "user_id", prop userDoc "age", prop userDoc "domains",
         prop userDoc "experience", prop userDoc "onboarding_completed",
         prop userDoc "updated_at"]) fun
      | .ok _ => Prog.done (ok (JsVal.obj [("success", JsVal.bool true)]))
      | .error error => Prog.done ⟨500, Body.json (JsVal.obj [
          ("error", JsVal.str "Failed to save onboarding"), ("details", error.message)])⟩

/-- Handler of `GET /user/onboarding/:userId`.  It reads `user_id` from `req.params`. -/
def getUserOnboarding (req : Req) : Prog :=
  let user_id := prop req.params "user_id"
  Prog.call (DbCall.query
      "SELECT onboarding_completed FROM users WHERE user_id = $1" [user_id]) fun
    | .ok [] => Prog.done (ok (JsVal.obj [("onboardingCompleted", JsVal.bool false)]))
    | .ok (row :: _) => Prog.done (ok (JsVal.obj [
        ("onboardingCompleted", jsOr (prop row "onboarding_completed") (JsVal.bool false))]))
    | .error _ => Prog.done (errorResponse 500 "Failed to check onboarding status")

/-- Handler of `GET /user/recently-viewed/:userId`.  It reads `user_id` from `req.params`. -/
def getRecentlyViewed (req : Req) : Prog :=
  let user_id := prop req.params "user_id"
  Prog.call (DbCall.query
      "SELECT recently_viewed_modules FROM users WHERE user_id = $1" [user_id]) fun
    | .ok rows =>
      Prog.done (ok (jsOr (firstProp rows "recently_viewed_modules") (JsVal.arr [])))
    | .error _ => Prog.done (errorResponse 500 "Failed to fetch recently viewed modules")

/-- Handler of `POST /user/recently-viewed/:userId`.  It reads `user_id` from `req.params`. -/
def postRecentlyViewed (req : Req) (clk : Clock) : Prog :=
  let user_id := prop req.params "user_id"
  let recentlyViewed := prop req.body "recentlyViewed"
  if !isArray recentlyViewed then
    Prog.done (errorResponse 400 "recentlyViewed must be an array")
  else
    Prog.call (DbCall.query
        "INSERT INTO users (user_id, recently_viewed_modules, updated_at) VALUES ($1, $2, $3) ON CONFLICT (user_id) DO UPDATE SET recently_viewed_modules = $2, updated_at = $3"
        [user_id, recentlyViewed, JsVal.date (clk.date 0)]) fun
      | .ok _ => Prog.done (ok (JsVal.obj [("success", JsVal.bool true)]))
      | .error _ => Prog.done (errorResponse 500 "Failed to save recently viewed modules")

/-- The object `module` that `POST /modules` builds from the body. -/
def moduleOf (body : JsObj) (clk : Clock) : JsObj := [
  ("title", prop body "title"),
  ("description", prop body "description"),
  ("image_url", prop body "image_url"),
  ("category", jsOr (prop body "category") (JsVal.str "General")),
  ("difficulty", jsOr (prop body "difficulty") (JsVal.str "beginner")),
  ("estimated_time", jsOr (prop body "estimated_time") (JsVal.num 30)),
  ("tags", jsOr (prop body "tags") (JsVal.arr [])),
  ("created_at", JsVal.date (clk.date 0)),
  ("updated_at", JsVal.date (clk.date 1))]

/-- Handler of `POST /modules`. -/
def postModules (req : Req) (clk : Clock) : Prog :=
  let module := moduleOf req.body clk
  Prog.call (DbCall.query
      "INSERT INTO modules (title, description, image_url, category, difficulty, estimated_time, tags, created_at, updated_at) VALUES ($1, $2, $3, $4, $5, $6, $7, $8, $9) RETURNING *"
      [prop module "title", prop module "description", prop module "image_url",
       prop module "category", prop module "difficulty", prop module "estimated_time",
       prop module "tags", prop module "created_at", prop module "updated_at"]) fun
    | .ok (row :: _) => Prog.done (ok (JsVal.obj (setProp module "id" (prop row "id"))))
    | .ok [] => Prog.done (errorResponse 500 "Failed to create module")
    | .error _ => Prog.done (errorResponse 500 "Failed to create module")

/-- Handler of `PUT /modules/:id`. -/
def putModule (req : Req) (clk : Clock) : Prog :=
  let id := prop req.params "id"
  Prog.call (DbCall.query
      "UPDATE modules SET title = $1, description = $2, image_url = $3, category = $4, difficulty = $5, estimated_time = $6, tags = $7, updated_at = $8 WHERE id = $9"
      [prop req.body "title", prop req.body "description", prop req.body "image_url",
       prop req.body "category", prop req.body "difficulty", prop req.body "estimated_time",
       prop req.body "tags", JsVal.date (clk.date 0), id]) fun
    | .ok _ => Prog.done (ok (JsVal.obj [("success", JsVal.bool true)]))
    | .error _ => Prog.done (errorResponse 500 "Failed to update module")

/-- Handler of `DELETE /modules/:id`. -/
def deleteModule (req : Req) : Prog :=
  let id := prop req.params "id"
  Prog.call (DbCall.query "DELETE FROM modules WHERE id = $1" [id]) fun
    | .ok _ => Prog.done (ok (JsVal.obj [("success", JsVal.bool true)]))
    | .error _ => Prog.done (errorResponse 500 "Failed to delete module")

/-- The object `chapter` that `POST /modules/:moduleId/chapters` builds; `module_id` is what the
handler read from `req.params` under the name `module_id`. -/
def chapterOf (module_id : JsVal) (body : JsObj) : JsObj := [
  ("module_id", module_id),
  ("title", prop body "title"),
  ("content", prop body "content"),
  ("video_url", prop body "video_url"),
  ("image_url", jsOr (prop body "image_url") JsVal.null),
  ("referenced_chapter", jsOr (prop body "referenced_chapter") JsVal.null)]

/-- Handler of `POST /modules/:moduleId/chapters`.  It reads `module_id` from `req.params`. -/
def postModuleChapters (req : Req) : Prog :=
  let module_id := prop req.params "module_id"
  let chapter := chapterOf module_id req.body
  Prog.call (DbCall.query
      "INSERT INTO chapters (module_id, title, content, video_url, image_url, referenced_chapter) VALUES ($1, $2, $3, $4, $5, $6) RETURNING *"
      [prop chapter "module_id", prop chapter "title", prop chapter "content",
       prop chapter "video_url", prop chapter "image_url",
       prop chapter "referenced_chapter"]) fun
    | .ok (row :: _) => Prog.done (ok (JsVal.obj (setProp chapter "id" (prop row "id"))))
    | .ok [] => Prog.done (errorResponse 500 "Failed to create chapter")
    | .error _ => Prog.done (errorResponse 500 "Failed to create chapter")

/-- Handler of `PUT /chapters/:id`. -/
def putChapter (req : Req) : Prog :=
  let id := prop req.params "id"
  Prog.call (DbCall.query
      "UPDATE chapters SET title = $1, content = $2, video_url = $3, image_url = $4, referenced_chapter = $5 WHERE id = $6"
      [prop req.body "title", prop req.body "content", prop req.body "video_url",
       prop req.body "image_url", prop req.body "referenced_chapter", id]) fun
    | .ok _ => Prog.done (ok (JsVal.obj [("success", JsVal.bool true)]))
    | .error _ => Prog.done (errorResponse 500 "Failed to update chapter")

/-- Handler of `DELETE /chapters/:id`. -/
def deleteChapter (req : Req) : Prog :=
  let id := prop req.params "id"
  Prog.call (DbCall.query "DELETE FROM chapters WHERE id = $1" [id]) fun
    | .ok _ => Prog.done (ok (JsVal.obj [("success", JsVal.bool true)]))
    | .error _ => Prog.done (errorResponse 500 "Failed to delete chapter")

/-- Handler of `GET /feedback`. -/
def getFeedback : Prog :=
  Prog.call (DbCall.query "SELECT * FROM feedback ORDER BY created_at DESC" []) fun
    | .ok rows => Prog.done (ok (rowsValue rows))
    | .error _ => Prog.done (errorResponse 500 "Failed to fetch feedback")

/-- The object `feedback` that `POST /feedback` builds from the body. -/
def feedbackOf (body : JsObj) (clk : Clock) : JsObj := [
  ("user_id", prop body "user_id"),
  ("user_name", prop body "user_name"),
  ("user_email", jsOr (prop body "user_email") (JsVal.str "")),
  ("subject", jsOr (prop body "subject") (JsVal.str "General Feedback")),
  ("message", prop body "message"),
  ("rating", jsOr (prop body "rating") (JsVal.num 0)),
  ("category", jsOr (prop body "category") (JsVal.str "general")),
  ("status", JsVal.str "new"),
  ("created_at", JsVal.date (clk.date 0)),
  ("updated_at", JsVal.date (clk.date 1))]

/-- Handler of `POST /feedback`. -/
def postFeedback (req : Req) (clk : Clock) : Prog :=
  if !(prop req.body "user_id").truthy || !(prop req.body "user_name").truthy
      || !(prop req.body "message").truthy then
    Prog.done (errorResponse 400 "Missing required fields: user_id, user_name, message")
  else
    let feedback := feedbackOf req.body clk
    Prog.call (DbCall.query
        "INSERT INTO feedback (user_id, user_name, user_email, subject, message, rating, category, status, created_at, updated_at) VALUES ($1, $2, $3, $4, $5, $6, $7, $8, $9, $10) RETURNING *"
        [prop feedback "user_id", prop feedback "user_name", prop feedback "user_email",
         prop feedback "subject", prop feedback "message", prop feedback "rating",
         prop feedback "category", prop feedback "status", prop feedback "created_at",
         prop feedback "updated_at"]) fun
      | .ok (row :: _) => Prog.done (ok (JsVal.obj (setProp feedback "id" (prop row "id"))))
      | .ok [] => Prog.done (errorResponse 500 "Failed to add feedback")
      | .error _ => Prog.done (errorResponse 500 "Failed to add feedback")

/-- Handler of `PUT /feedback/:id/status`. -/
def putFeedbackStatus (req : Req) (clk : Clock) : Prog :=
  let id := prop req.params "id"
  let status := prop req.body "status"
  if !includesStr ["new", "in-progress", "resolved"] status then
    Prog.done (errorResponse 400 "Invalid status")
  else
    Prog.call (DbCall.query
        "UPDATE feedback SET status = $1, updated_at = $2 WHERE id = $3"
        [status, JsVal.date (clk.date 0), id]) fun
      | .ok _ => Prog.done (ok (JsVal.obj [("success", JsVal.bool true)]))
      | .error _ => Prog.done (errorResponse 500 "Failed to update feedback status")

/-- Handler of `DELETE /feedback/:id`. -/
def deleteFeedback (req : Req) : Prog :=
  let id := prop req.params "id"
  Prog.call (DbCall.query "DELETE FROM feedback WHERE id = $1" [id]) fun
    | .ok _ => Prog.done (ok (JsVal.obj [("success", JsVal.bool true)]))
    | .error _ => Prog.done (errorResponse 500 "Failed to delete feedback")

/-! ## The application: routes and the connection check -/

/-- The routes registered on `app`, in the order of the source. -/
inductive Route where
  | getRoot
  | getHealth
  | getTest
  | getModules
  | getCategories
  | getModuleChapters
  | getChapters
  | getChapterById
  | getNotes
  | getUserNotes
  | postNotes
  | putNote
  | deleteNote
  | getBookmarks
  | postBookmarks
  | deleteBookmark
  | getReviews
  | postReviews
  | postUserOnboarding
  | getUserOnboarding
  | getRecentlyViewed
  | postRecentlyViewed
  | postModules
  | putModule
  | deleteModule
  | postModuleChapters
  | putChapter
  | deleteChapter
  | getFeedback
  | postFeedback
  | putFeedbackStatus
  | deleteFeedback
  deriving DecidableEq

/-- The handler registered for a route, given the handle `req.db`.  The two routes without the
middleware make no call and ignore the handle. -/
def handler {σ : Type} (db : Db σ) (rt : Route) (req : Req) (clk : Clock) : Prog :=
  match rt with
  | .getRoot => Prog.done getRoot
  | .getHealth => Prog.done (getHealth clk)
  | .getTest => getTest db.databaseName clk
  | .getModules => getModules req
  | .getCategories => getCategories
  | .getModuleChapters => getModuleChapters req
  | .getChapters => getChapters
  | .getChapterById => getChapterById req
  | .getNotes => getNotes
  | .getUserNotes => getUserNotes req
  | .postNotes => postNotes req clk
  | .putNote => putNote req clk
  | .deleteNote => deleteNote req
  | .getBookmarks => getBookmarks req
  | .postBookmarks => postBookmarks req clk
  | .deleteBookmark => deleteBookmark req
  | .getReviews => getReviews
  | .postReviews => postReviews req clk
  | .postUserOnboarding => postUserOnboarding req clk
  | .getUserOnboarding => getUserOnboarding req
  | .getRecentlyViewed => getRecentlyViewed req
  | .postRecentlyViewed => postRecentlyViewed req clk
  | .postModules => postModules req clk
  | .putModule => putModule req clk
  | .deleteModule => deleteModule req
  | .postModuleChapters => postModuleChapters req
  | .putChapter => putChapter req
  | .deleteChapter => deleteChapter req
  | .getFeedback => getFeedback
  | .postFeedback => postFeedback req clk
  | .putFeedbackStatus => putFeedbackStatus req clk
  | .deleteFeedback => deleteFeedback req

/-- The middleware `ensureDBConnection`: with the shared handle `db` unset it answers 500 and
does not call `next`; otherwise `next` runs with the handle as `req.db`. -/
def ensureDBConnection {σ : Type} (db : Option (Db σ)) (next : Db σ → σ → Outcome σ)
    (s : σ) : Outcome σ :=
  match db with
  | none =>
    ⟨⟨500, Body.json (JsVal.obj [
      ("error", JsVal.str "Database connection failed"),
      ("message", JsVal.str "Database not connected")])⟩, s, []⟩
  | some h => next h s

/-- The application: one request on a route, with the shared handle `db` (unset when
`connectDB` failed) and the store state. -/
def app {σ : Type} (db : Option (Db σ)) (rt : Route) (req : Req) (clk : Clock) (s : σ) :
    Outcome σ :=
  match rt with
  | .getRoot => ⟨getRoot, s, []⟩
  | .getHealth => ⟨getHealth clk, s, []⟩
  | rt => ensureDBConnection db (fun h s => (handler h rt req clk).run h s) s

/-! ## A reference store

The handle is used through two interfaces in the source: `query` with SQL text and
positional parameters, and the collection interface (`collection(..).find(..).sort(..)`,
`listCollections()`).  The reference store answers both over the same tables, following the
text of each statement.  Every call it knows succeeds; a statement that is not in the source
is rejected, and so is a `find` filter with an operator outside the equality family.  The
ids of new records come from `generatedId`, modelled from the specification. -/

/-- The tables, each a list of rows in insertion order, and the next generated id. -/
structure Store where
  modules : List JsObj := []
  chapters : List JsObj := []
  notes : List JsObj := []
  bookmarks : List JsObj := []
  reviews : List JsObj := []
  feedback : List JsObj := []
  users : List JsObj := []
  nextId : Nat := 1

/-- A parameter as the driver sends it: `undefined` goes as `null`. -/
def pgParam : JsVal → JsVal
  | .undefined => JsVal.null
  | v => v

/-- The i-th positional parameter (`$1` is index 0). -/
def param (ps : List JsVal) (i : Nat) : JsVal := pgParam (ps.getD i JsVal.undefined)

/-- The text form in which a scalar is compared; `null` and the non-scalars have none. -/
def sqlText : JsVal → Option String
  | .str s => some s
  | .num n => some (toString n)
  | .bool b => some (toString b)
  | _ => none

/-- The comparison `column = $n`: true only for two scalars of the same text; a comparison
with `null` is never true. -/
def sqlEq (a b : JsVal) : Bool :=
  match sqlText a, sqlText b with
  | some x, some y => x == y
  | _, _ => false

/-- The rows of `WHERE col = v`. -/
def whereEq (rows : List JsObj) (col : String) (v : JsVal) : List JsObj :=
  rows.filter fun r => sqlEq (prop r col) v

/-- The rows left by `DELETE ... WHERE col = v`. -/
def deleteWhere (rows : List JsObj) (col : String) (v : JsVal) : List JsObj :=
  rows.filter fun r => !sqlEq (prop r col) v

/-- Assign the listed columns, in order, in one row. -/
def assign (row : JsObj) (sets : List (String × JsVal)) : JsObj :=
  sets.foldl (fun r kv => setProp r kv.1 kv.2) row

/-- The table after `UPDATE ... SET sets WHERE col = v`. -/
def updateWhere (rows : List JsObj) (col : String) (v : JsVal)
    (sets : List (String × JsVal)) : List JsObj :=
  rows.map fun r => if sqlEq (prop r col) v then assign r sets else r

/-- The creation instant of a row, if it has one. -/
def createdKey (r : JsObj) : Option Int :=
  match prop r "created_at" with
  | .date ms => some ms
  | _ => none

/-- The order of `ORDER BY created_at DESC`: later first, rows without an instant first. -/
def sqlNewerFirst (a b : JsObj) : Bool :=
  match createdKey a, createdKey b with
  | none, _ => true
  | some _, none => false
  | some x, some y => decide (y ≤ x)

/-- The order of `.sort({ created_at: -1 })`: later first, rows without an instant last. -/
def mongoNewerFirst (a b : JsObj) : Bool :=
  match createdKey a, createdKey b with
  | _, none => true
  | none, some _ => false
  | some x, some y => decide (y ≤ x)

/-- The clause `ORDER BY created_at DESC`. -/
def orderByCreatedDesc (rows : List JsObj) : List JsObj :=
  rows.insertionSort fun a b => sqlNewerFirst a b = true

/-- The cursor method `.sort({ created_at: -1 })`. -/
def sortCreatedDesc (rows : List JsObj) : List JsObj :=
  rows.insertionSort fun a b => mongoNewerFirst a b = true

mutual
/-- Equality of two values part by part: arrays element by element, objects field by field,
both in order. -/
def JsVal.beq : JsVal → JsVal → Bool
  | .undefined, .undefined => true
  | .null, .null => true
  | .bool a, .bool b => a == b
  | .num a, .num b => a == b
  | .str a, .str b => a == b
  | .date a, .date b => a == b
  | .arr xs, .arr ys => JsVal.beqList xs ys
  | .obj fs, .obj gs => JsVal.beqFields fs gs
  | _, _ => false
/-- Equality of two lists of values. -/
def JsVal.beqList : List JsVal → List JsVal → Bool
  | [], [] => true
  | x :: xs, y :: ys => JsVal.beq x y && JsVal.beqList xs ys
  | _, _ => false
/-- Equality of two lists of fields. -/
def JsVal.beqFields : List (String × JsVal) → List (String × JsVal) → Bool
  | [], [] => true
  | (k, x) :: xs, (l, y) :: ys => k == l && JsVal.beq x y && JsVal.beqFields xs ys
  | _, _ => false
end

/-- The equality match of `find` for a query value that is not an operator expression: the
field equals the value, or the field is an array with an element equal to the value; the
value `null` also matches a missing field. -/
def mongoEq (field v : JsVal) : Bool :=
  JsVal.beq field v ||
    (match v with
      | .null => field.nullish
      | _ => false) ||
    (match field with
      | .arr xs => xs.any fun x => JsVal.beq x v
      | _ => false)

/-- A field name of a query value that starts with `$` names an operator. -/
def isOperatorName (k : String) : Bool :=
  match k.data with
  | c :: _ => c == '$'
  | [] => false

/-- One operator of an operator expression applied to a field.  The equality family is
modelled: `$eq`, `$ne`, `$in`, `$nin`.  The reference store rejects every other name
(`none`). -/
def applyOperator (field : JsVal) (op : String) (arg : JsVal) : Option Bool :=
  if op = "$eq" then some (mongoEq field arg)
  else if op = "$ne" then some (!mongoEq field arg)
  else if op = "$in" then
    match arg with
    | .arr vs => some (vs.any fun v => mongoEq field v)
    | _ => none
  else if op = "$nin" then
    match arg with
    | .arr vs => some (!vs.any fun v => mongoEq field v)
    | _ => none
  else none

/-- One filter entry `{ k: v }` of `find`.  An object `v` with an operator name among its
fields is an operator expression, and the field must satisfy each operator; any other `v`
is matched by equality.  The answer is `none` when the store rejects the expression. -/
def fieldMatches (field v : JsVal) : Option Bool :=
  match v with
  | .obj entries =>
    if entries.any fun kv => isOperatorName kv.1 then
      entries.foldr (fun kv acc =>
        match applyOperator field kv.1 kv.2, acc with
        | some a, some b => some (a && b)
        | _, _ => none) (some true)
    else some (mongoEq field v)
  | _ => some (mongoEq field v)

/-- The filters `find` accepts: those whose entries it can evaluate. -/
def filterAccepted (filter : JsObj) : Bool :=
  filter.all fun kv => (fieldMatches JsVal.undefined kv.2).isSome

/-- The documents `find(filter)` selects: those matching every entry of the filter. -/
def findMatching (rows : List JsObj) (filter : JsObj) : List JsObj :=
  rows.filter fun r => filter.all fun kv =>
    match fieldMatches (prop r kv.1) kv.2 with
    | some true => true
    | _ => false

/-- The projection `SELECT DISTINCT category`: one row per category, first occurrences. -/
def distinctCategories : List JsObj → List (Option String) → List JsObj
  | [], _ => []
  | r :: rest, seen =>
    if seen.contains (sqlText (prop r "category")) then distinctCategories rest seen
    else [("category", pgParam (prop r "category"))]
      :: distinctCategories rest (sqlText (prop r "category") :: seen)

/-- The row that `INSERT ... RETURNING *` creates: the generated id, then the listed columns. -/
def newRow (id : Nat) (cols : List String) (ps : List JsVal) : JsObj :=
  ("id", JsVal.num id) :: (cols.enum.map fun ic => (ic.2, param ps ic.1))

/-- The `users` table after `INSERT ... ON CONFLICT (user_id) DO UPDATE SET sets`: the row of
that user is updated when there is one, otherwise `fresh` is added.  A `null` key conflicts
with no row. -/
def upsertUser (users : List JsObj) (user_id : JsVal) (fresh : JsObj)
    (sets : List (String × JsVal)) : List JsObj :=
  if (whereEq users "user_id" user_id).isEmpty then users ++ [fresh]
  else updateWhere users "user_id" user_id sets

/-- A resolved call with its rows. -/
def resolved (rows : List JsObj) (s : Store) : Except Err (List JsObj) × Store := (.ok rows, s)

/-- A rejected call. -/
def rejected (msg : String) (s : Store) : Except Err (List JsObj) × Store :=
  (.error ⟨JsVal.str msg⟩, s)

/-- Modelled from the spec: the generator of record ids.  The declaration of the tables and of
their id columns is not in the source (`index.js` only copies `result.rows[0].id` into the
response); the specification says that a creation returns "a generated identifier" and that
two creations give "two distinct records with distinct generated ids".  The model is a
counter: the id of a new record is the value of the counter, and every insert advances
it. -/
def generatedId (s : Store) : Nat := s.nextId

/-- The statement `INSERT INTO table (cols) VALUES (...) RETURNING *` on a table picked by
`put`: the new row goes last with the generated id, the counter advances, the new row is
returned. -/
def insertReturning (s : Store) (cols : List String) (ps : List JsVal)
    (put : Store → JsObj → Store) : Except Err (List JsObj) × Store :=
  let row := newRow (generatedId s) cols ps
  (.ok [row], { put s row with nextId := generatedId s + 1 })

/-- The statements of `index.js` on `modules` and `chapters`. -/
def execContent (s : Store) (sql : String) (ps : List JsVal) :
    Option (Except Err (List JsObj) × Store) :=
  if sql = "SELECT DISTINCT category FROM modules" then
    some (resolved (distinctCategories s.modules []) s)
  else if sql = "SELECT * FROM chapters WHERE module_id = $1" then
    some (resolved (whereEq s.chapters "module_id" (param ps 0)) s)
  else if sql = "SELECT * FROM chapters" then
    some (resolved s.chapters s)
  else if sql = "SELECT * FROM chapters WHERE id = $1" then
    some (resolved (whereEq s.chapters "id" (param ps 0)) s)
  else if sql = "SELECT * FROM modules WHERE id = $1" then
    some (resolved (whereEq s.modules "id" (param ps 0)) s)
  else if sql = "INSERT INTO modules (title, description, image_url, category, difficulty, estimated_time, tags, created_at, updated_at) VALUES ($1, $2, $3, $4, $5, $6, $7, $8, $9) RETURNING *" then
    some (insertReturning s
      ["title", "description", "image_url", "category", "difficulty", "estimated_time", "tags",
       "created_at", "updated_at"] ps
      fun s row => { s with modules := s.modules ++ [row] })
  else if sql = "UPDATE modules SET title = $1, description = $2, image_url = $3, category = $4, difficulty = $5, estimated_time = $6, tags = $7, updated_at = $8 WHERE id = $9" then
    some (resolved [] { s with modules := updateWhere s.modules "id" (param ps 8) [
      ("title", param ps 0), ("description", param ps 1), ("image_url", param ps 2),
      ("category", param ps 3), ("difficulty", param ps 4), ("estimated_time", param ps 5),
      ("tags", param ps 6), ("updated_at", param ps 7)] })
  else if sql = "DELETE FROM modules WHERE id = $1" then
    some (resolved [] { s with modules := deleteWhere s.modules "id" (param ps 0) })
  else if sql = "INSERT INTO chapters (module_id, title, content, video_url, image_url, referenced_chapter) VALUES ($1, $2, $3, $4, $5, $6) RETURNING *" then
    some (insertReturning s
      ["module_id", "title", "content", "video_url", "image_url", "referenced_chapter"] ps
      fun s row => { s with chapters := s.chapters ++ [row] })
  else if sql = "UPDATE chapters SET title = $1, content = $2, video_url = $3, image_url = $4, referenced_chapter = $5 WHERE id = $6" then
    some (resolved [] { s with chapters := updateWhere s.chapters "id" (param ps 5) [
      ("title", param ps 0), ("content", param ps 1), ("video_url", param ps 2),
      ("image_url", param ps 3), ("referenced_chapter", param ps 4)] })
  else if sql = "DELETE FROM chapters WHERE id = $1" then
    some (resolved [] { s with chapters := deleteWhere s.chapters "id" (param ps 0) })
  else none

/-- The statements of `index.js` on `notes`, `bookmarks`, `reviews` and `feedback`. -/
def execUserContent (s : Store) (sql : String) (ps : List JsVal) :
    Option (Except Err (List JsObj) × Store) :=
  if sql = "SELECT * FROM notes" then
    some (resolved s.notes s)
  else if sql = "SELECT * FROM notes WHERE user_id = $1 ORDER BY created_at DESC" then
    some (resolved (orderByCreatedDesc (whereEq s.notes "user_id" (param ps 0))) s)
  else if sql = "INSERT INTO notes (user_id, module_id, chapter_id, title, topic, content, tags, created_at, updated_at) VALUES ($1, $2, $3, $4, $5, $6, $7, $8, $9) RETURNING *" then
    some (insertReturning s
      ["user_id", "module_id", "chapter_id", "title", "topic", "content", "tags", "created_at",
       "updated_at"] ps
      fun s row => { s with notes := s.notes ++ [row] })
  else if sql = "UPDATE notes SET topic = $1, content = $2, tags = $3, updated_at = $4 WHERE id = $5" then
    some (resolved [] { s with notes := updateWhere s.notes "id" (param ps 4) [
      ("topic", param ps 0), ("content", param ps 1), ("tags", param ps 2),
      ("updated_at", param ps 3)] })
  else if sql = "DELETE FROM notes WHERE id = $1" then
    some (resolved [] { s with notes := deleteWhere s.notes "id" (param ps 0) })
  else if sql = "SELECT * FROM bookmarks WHERE user_id = $1 ORDER BY created_at DESC" then
    some (resolved (orderByCreatedDesc (whereEq s.bookmarks "user_id" (param ps 0))) s)
  else if sql = "INSERT INTO bookmarks (chapter_id, title, module_id, module_title, chapter_title, category, tags, notes, is_important, user_id, created_at) VALUES ($1, $2, $3, $4, $5, $6, $7, $8, $9, $10, $11) RETURNING *" then
    some (insertReturning s
      ["chapter_id", "title", "module_id", "module_title", "chapter_title", "category", "tags",
       "notes", "is_important", "user_id", "created_at"] ps
      fun s row => { s with bookmarks := s.bookmarks ++ [row] })
  else if sql = "DELETE FROM bookmarks WHERE id = $1" then
    some (resolved [] { s with bookmarks := deleteWhere s.bookmarks "id" (param ps 0) })
  else if sql = "SELECT * FROM reviews ORDER BY created_at DESC" then
    some (resolved (orderByCreatedDesc s.reviews) s)
  else if sql = "INSERT INTO reviews (user_id, user_name, text, rating, created_at) VALUES ($1, $2, $3, $4, $5) RETURNING *" then
    some (insertReturning s ["user_id", "user_name", "text", "rating", "created_at"] ps
      fun s row => { s with reviews := s.reviews ++ [row] })
  else if sql = "SELECT * FROM feedback ORDER BY created_at DESC" then
    some (resolved (orderByCreatedDesc s.feedback) s)
  else if sql = "INSERT INTO feedback (user_id, user_name, user_email, subject, message, rating, category, status, created_at, updated_at) VALUES ($1, $2, $3, $4, $5, $6, $7, $8, $9, $10) RETURNING *" then
    some (insertReturning s
      ["user_id", "user_name", "user_email", "subject", "message", "rating", "category",
       "status", "created_at", "updated_at"] ps
      fun s row => { s with feedback := s.feedback ++ [row] })
  else if sql = "UPDATE feedback SET status = $1, updated_at = $2 WHERE id = $3" then
    some (resolved [] { s with feedback := updateWhere s.feedback "id" (param ps 2) [
      ("status", param ps 0), ("updated_at", param ps 1)] })
  else if sql = "DELETE FROM feedback WHERE id = $1" then
    some (resolved [] { s with feedback := deleteWhere s.feedback "id" (param ps 0) })
  else none

/-- The statements of `index.js` on `users`. -/
def execUsers (s : Store) (sql : String) (ps : List JsVal) :
    Option (Except Err (List JsObj) × Store) :=
  if sql = "INSERT INTO users (user_id, age, domains, experience, onboarding_completed, updated_at) VALUES ($1, $2, $3, $4, $5, $6) ON CONFLICT (user_id) DO UPDATE SET age = $2, domains = $3, experience = $4, onboarding_completed = $5, updated_at = $6" then
    some (resolved [] { s with users := upsertUser s.users (param ps 0) [
        ("user_id", param ps 0), ("age", param ps 1), ("domains", param ps 2),
        ("experience", param ps 3), ("onboarding_completed", param ps 4),
        ("recently_viewed_modules", JsVal.null), ("updated_at", param ps 5)] [
        ("age", param ps 1), ("domains", param ps 2), ("experience", param ps 3),
        ("onboarding_completed", param ps 4), ("updated_at", param ps 5)] })
  else if sql = "SELECT onboarding_completed FROM users WHERE user_id = $1" then
    some (resolved ((whereEq s.users "user_id" (param ps 0)).map fun r =>
      [("onboarding_completed", prop r "onboarding_completed")]) s)
  else if sql = "SELECT recently_viewed_modules FROM users WHERE user_id = $1" then
    some (resolved ((whereEq s.users "user_id" (param ps 0)).map fun r =>
      [("recently_viewed_modules", prop r "recently_viewed_modules")]) s)
  else if sql = "INSERT INTO users (user_id, recently_viewed_modules, updated_at) VALUES ($1, $2, $3) ON CONFLICT (user_id) DO UPDATE SET recently_viewed_modules = $2, updated_at = $3" then
    some (resolved [] { s with users := upsertUser s.users (param ps 0) [
        ("user_id", param ps 0), ("age", JsVal.null), ("domains", JsVal.null),
        ("experience", JsVal.null), ("onboarding_completed", JsVal.null),
        ("recently_viewed_modules", param ps 1), ("updated_at", param ps 2)] [
        ("recently_viewed_modules", param ps 1), ("updated_at", param ps 2)] })
  else none

/-- The names `listCollections()` reports. -/
def collectionNames : List String :=
  ["modules", "chapters", "notes", "bookmarks", "reviews", "feedback", "users"]

/-- How the reference store answers a call. -/
def pgExec (s : Store) : DbCall → Except Err (List JsObj) × Store
  | .query sql ps =>
    match execContent s sql ps with
    | some r => r
    | none =>
      match execUserContent s sql ps with
      | some r => r
      | none =>
        match execUsers s sql ps with
        | some r => r
        | none => rejected "unknown statement" s
  | .listCollections =>
    resolved (collectionNames.map fun n => [("name", JsVal.str n)]) s
  | .find collection filter sort =>
    if collection = "modules" then
      match prop sort "created_at" with
      | .num n =>
        if n = -1 then
          if filterAccepted filter then
            resolved (sortCreatedDesc (findMatching s.modules filter)) s
          else rejected "unknown operator" s
        else rejected "unknown sort" s
      | _ => rejected "unknown sort" s
    else rejected "unknown collection" s

/-- The reference store as a handle on the database `finance_app`. -/
def pgDb : Db Store := ⟨JsVal.str "finance_app", pgExec⟩

/-! ## Statements of the specification, and sample inputs -/

/-- The content rule of a note in the words of the specification: the body's `content` when it
is non-null, otherwise the body's `text` when that is non-null, otherwise the empty string. -/
def noteContentSpec (body : JsObj) : JsVal :=
  match prop body "content" with
  | .undefined | .null =>
    match prop body "text" with
    | .undefined | .null => JsVal.str ""
    | text => text
  | content => content

/-- The fallback rule with the falsy values spelled out: the default `d` stands in exactly
when the supplied value is omitted, `null`, `false`, `0` or the empty string. -/
def suppliedOr (v d : JsVal) : JsVal :=
  match v with
  | .undefined => d
  | .null => d
  | .bool false => d
  | .num 0 => d
  | .str "" => d
  | v => v

/-- A clock for the sample runs: the k-th reading is 1000 + k milliseconds. -/
def sampleClock : Clock := ⟨fun k => 1000 + k, fun _ => "1970-01-01T00:00:01.000Z"⟩

/-- A chapter that refers to `sampleReferenced`. -/
def sampleChapter : JsObj :=
  [("id", JsVal.str "c1"), ("module_id", JsVal.str "m0"), ("title", JsVal.str "Summary"),
   ("referenced_chapter", JsVal.str "c2")]

/-- The chapter that `sampleChapter` refers to, in module `m1`. -/
def sampleReferenced : JsObj :=
  [("id", JsVal.str "c2"), ("module_id", JsVal.str "m1"), ("title", JsVal.str "Key Concepts")]

/-- The module `m1`. -/
def sampleModule : JsObj :=
  [("id", JsVal.str "m1"), ("title", JsVal.str "Crypto Basics"),
   ("category", JsVal.str "Cryptocurrency")]

/-- A store with the two sample chapters, the sample module and the user `u1`. -/
def sampleStore : Store :=
  { chapters := [sampleChapter, sampleReferenced],
    modules := [sampleModule],
    users := [[("user_id", JsVal.str "u1"), ("age", JsVal.num 30),
      ("domains", JsVal.arr [JsVal.str "stocks"]), ("experience", JsVal.str "beginner"),
      ("onboarding_completed", JsVal.bool true), ("recently_viewed_modules", JsVal.arr []),
      ("updated_at", JsVal.date 500)]],
    nextId := 1 }

/-- The sentinel `'all'` of the category query value. -/
def isAllSentinel : JsVal → Bool
  | .str s => s == "all"
  | _ => false

/-- The filter of `GET /modules` in the words of the specification, for the category query
value `c` (`undefined` when the query carries none): every module when the category is
absent or the sentinel `all`, otherwise the modules whose category is exactly `c`. -/
def categorySelectsSpec (c : JsVal) (r : JsObj) : Bool :=
  match c with
  | .undefined => true
  | c => if isAllSentinel c then true else JsVal.beq (prop r "category") c

/-- The filter of `GET /modules` as amended, for a category query value that is not an
object: every module when the value is absent, empty or the sentinel `all`, otherwise the
modules whose category is the value or an array with the value among its elements. -/
def categorySelects (c : JsVal) (r : JsObj) : Bool :=
  if !c.truthy || isAllSentinel c then true
  else
    JsVal.beq (prop r "category") c ||
      (match prop r "category" with
        | .arr xs => xs.any fun x => JsVal.beq x c
        | _ => false)

/-- A module in category Trading. -/
def moduleTrading : JsObj :=
  [("id", JsVal.num 1), ("title", JsVal.str "Trading Fundamentals"),
   ("category", JsVal.str "Trading"), ("created_at", JsVal.date 100)]

/-- A later module with the empty category. -/
def moduleUncategorised : JsObj :=
  [("id", JsVal.num 2), ("title", JsVal.str "Untitled"),
   ("category", JsVal.str ""), ("created_at", JsVal.date 200)]

/-- A still later module whose category is a list. -/
def moduleListed : JsObj :=
  [("id", JsVal.num 3), ("title", JsVal.str "Crypto Trading"),
   ("category", JsVal.arr [JsVal.str "Trading", JsVal.str "Crypto"]),
   ("created_at", JsVal.date 300)]

/-- The three sample modules in insertion order. -/
def sampleModules : List JsObj := [moduleTrading, moduleUncategorised, moduleListed]

/-- The closed set of feedback statuses: "new", "in-progress", "resolved". -/
def statusAllowed : JsVal → Bool
  | .str s => s == "new" || s == "in-progress" || s == "resolved"
  | _ => false

/-- The invariant of the feedback table: every stored record has an allowed status. -/
def feedbackStatusesAllowed (s : Store) : Prop :=
  ∀ r ∈ s.feedback, statusAllowed (prop r "status") = true
/-- A store with one feedback record, of status "new". -/
def sampleFeedbackStore : Store :=
  { feedback := [[("id", JsVal.num 7), ("user_id", JsVal.str "u1"),
      ("message", JsVal.str "hello"), ("status", JsVal.str "new")]],
    nextId := 8 }

/-- A feedback body that carries a status of its own. -/
def sampleFeedbackBody : JsObj :=
  [("user_id", JsVal.str "u2"), ("user_name", JsVal.str "Ann"),
   ("message", JsVal.str "more charts please"), ("status", JsVal.str "closed")]

/-- Every response the handler can end with satisfies `P`, whatever its calls are answered
with, as long as each answer satisfies `Q`. -/
def Prog.Always (Q : Except Err (List JsObj) → Prop) (P : Response → Prop) : Prog → Prop
  | .done r => P r
  | .call _ k => ∀ res, Q res → Prog.Always Q P (k res)

/-- The handler continues in the same way after a rejected call whatever was thrown. -/
def Prog.ErrorBlind : Prog → Prop
  | .done _ => True
  | .call _ k => (∀ e₁ e₂, k (.error e₁) = k (.error e₂)) ∧ ∀ res, Prog.ErrorBlind (k res)

/-- The shape `{ error: string, message?: string }` of an error body. -/
def isErrorShape : Body → Bool
  | .json (.obj [(k, .str _)]) => k == "error"
  | .json (.obj [(k₁, .str _), (k₂, .str _)]) => k₁ == "error" && k₂ == "message"
  | _ => false

/-- The thrown value carries a string message, as an `Error` does. -/
def hasStringMessage (res : Except Err (List JsObj)) : Prop :=
  ∀ e, res = .error e → ∃ m, e.message = JsVal.str m

/-- Two answers to a call that differ at most in the value thrown. -/
def sameUpToError {σ : Type} (a b : Except Err (List JsObj) × σ) : Prop :=
  a.2 = b.2 ∧
    match a.1, b.1 with
    | .ok rows₁, .ok rows₂ => rows₁ = rows₂
    | .error _, .error _ => True
    | _, _ => False

/-- A store in which every call is rejected with the given message. -/
def failingDb (msg : String) : Db Store :=
  ⟨JsVal.str "finance_app", fun s _ => (.error ⟨JsVal.str msg⟩, s)⟩

/-- The counter of generated ids is ahead of the module table: every stored module has a
numeric id below the next generated id.  It holds in the empty store and every insert keeps
it. -/
def modulesBelowCounter (s : Store) : Prop :=
  ∀ r ∈ s.modules, ∃ i : Nat, prop r "id" = JsVal.num i ∧ i < generatedId s

/-- What `express.json()` (registered before every route) makes of the body of an incoming
request: the parsed object, the empty object when the request carries no JSON body; or a
failure to parse, which Express answers itself with the HTML page `page`. -/
inductive ParsedBody where
  | object (body : JsObj)
  | failure (page : String)

/-- The application behind `express.json()`: a body that does not parse is answered with
status 400 and an HTML page before any route or the connection check runs; otherwise the
route runs on the parsed body. -/
def server {σ : Type} (db : Option (Db σ)) (rt : Route) (params query : JsObj)
    (body : ParsedBody) (clk : Clock) (s : σ) : Outcome σ :=
  match body with
  | .failure page => ⟨⟨400, Body.text page⟩, s, []⟩
  | .object b => app db rt ⟨params, query, b⟩ clk s

set_option maxRecDepth 100000

/-! ## Properties of the value operators -/

theorem jsCoalesce_content_eq_spec (body : JsObj) :
    jsCoalesce (prop body "content") (jsCoalesce (prop body "text") (JsVal.str "")) =
      noteContentSpec body := by
  unfold noteContentSpec
  cases prop body "content" <;> cases prop body "text" <;> rfl

theorem jsOr_eq_suppliedOr (v d : JsVal) : jsOr v d = suppliedOr v d := by
  cases v with
  | bool b => cases b <;> rfl
  | num n =>
    by_cases h : n = 0
    · subst h; rfl
    · simp [jsOr, JsVal.truthy, h, suppliedOr]
  | str s =>
    by_cases h : s = ""
    · subst h; rfl
    · simp [jsOr, JsVal.truthy, h, suppliedOr]
  | _ => rfl

theorem jsOr_of_truthy (v d : JsVal) (h : v.truthy = true) : jsOr v d = v := by
  simp [jsOr, h]

theorem jsOr_of_falsy (v d : JsVal) (h : v.truthy = false) : jsOr v d = d := by
  simp [jsOr, h]

/-! ## Validation failures make no data-store call -/

/-- C1: with the handle connected, a body of POST /reviews lacking one of user_id, user_name,
text, rating is answered with status 400 and the body
{error: "Missing user_id, user_name, text, or rating"}; no data-store call is made and the
store is the one before the request, whatever the store is. -/
theorem postReviews_missing_field {σ : Type} (db : Db σ) (req : Req) (clk : Clock) (s : σ)
    (h : prop req.body "user_id" = JsVal.undefined ∨ prop req.body "user_name" = JsVal.undefined
      ∨ prop req.body "text" = JsVal.undefined ∨ prop req.body "rating" = JsVal.undefined) :
    app (some db) Route.postReviews req clk s =
      ⟨⟨400, Body.json (JsVal.obj
        [("error", JsVal.str "Missing user_id, user_name, text, or rating")])⟩, s, []⟩ := by
  have hc : (!(prop req.body "user_id").truthy || !(prop req.body "user_name").truthy
      || !(prop req.body "text").truthy || !(prop req.body "rating").truthy) = true := by
    rcases h with h | h | h | h <;> simp [h, JsVal.truthy]
  simp only [app, ensureDBConnection, handler, postReviews, hc, if_true, Prog.run, errorResponse]

/-- Witness of C1: a review without user_name and rating, sent to a store holding one review,
is refused and the store keeps exactly that review. -/
theorem postReviews_missing_field_witness :
    (prop [("user_id", JsVal.str "u1"), ("text", JsVal.str "fine")] "user_name"
        = JsVal.undefined) ∧
    app (some pgDb) Route.postReviews
        ⟨[], [], [("user_id", JsVal.str "u1"), ("text", JsVal.str "fine")]⟩ sampleClock
        { reviews := [[("id", JsVal.num 1), ("text", JsVal.str "old")]], nextId := 2 } =
      ⟨⟨400, Body.json (JsVal.obj
        [("error", JsVal.str "Missing user_id, user_name, text, or rating")])⟩,
       { reviews := [[("id", JsVal.num 1), ("text", JsVal.str "old")]], nextId := 2 }, []⟩ :=
  ⟨rfl, postReviews_missing_field pgDb _ sampleClock _ (Or.inr (Or.inl rfl))⟩

/-- C2: with the handle connected, a body of PUT /feedback/:id/status whose status is none of
"new", "in-progress", "resolved" (an absent status included) is answered with status 400 and
{error: "Invalid status"}, for every id; no data-store call is made and the store, so every
stored status, is the one before the request. -/
theorem putFeedbackStatus_invalid {σ : Type} (db : Db σ) (req : Req) (clk : Clock) (s : σ)
    (h : prop req.body "status" ≠ JsVal.str "new" ∧
      prop req.body "status" ≠ JsVal.str "in-progress" ∧
      prop req.body "status" ≠ JsVal.str "resolved") :
    app (some db) Route.putFeedbackStatus req clk s =
      ⟨⟨400, Body.json (JsVal.obj [("error", JsVal.str "Invalid status")])⟩, s, []⟩ := by
  have hc : includesStr ["new", "in-progress", "resolved"] (prop req.body "status") = false := by
    obtain ⟨h1, h2, h3⟩ := h
    cases hv : prop req.body "status" with
    | str t =>
      rw [hv] at h1 h2 h3
      have e1 : t ≠ "new" := fun e => h1 (by rw [e])
      have e2 : t ≠ "in-progress" := fun e => h2 (by rw [e])
      have e3 : t ≠ "resolved" := fun e => h3 (by rw [e])
      simp [includesStr, e1, e2, e3]
    | _ => rfl
  simp only [app, ensureDBConnection, handler, putFeedbackStatus, hc, Prog.run, errorResponse]

/-- Witness of C2: the status "done" is refused and the stored record keeps status "new". -/
theorem putFeedbackStatus_invalid_witness :
    (prop [("status", JsVal.str "done")] "status" ≠ JsVal.str "new" ∧
      prop [("status", JsVal.str "done")] "status" ≠ JsVal.str "in-progress" ∧
      prop [("status", JsVal.str "done")] "status" ≠ JsVal.str "resolved") ∧
    app (some pgDb) Route.putFeedbackStatus
        ⟨[("id", JsVal.str "7")], [], [("status", JsVal.str "done")]⟩ sampleClock
        { feedback := [[("id", JsVal.num 7), ("status", JsVal.str "new")]], nextId := 8 } =
      ⟨⟨400, Body.json (JsVal.obj [("error", JsVal.str "Invalid status")])⟩,
       { feedback := [[("id", JsVal.num 7), ("status", JsVal.str "new")]], nextId := 8 }, []⟩ :=
  have h : prop [("status", JsVal.str "done")] "status" ≠ JsVal.str "new" ∧
      prop [("status", JsVal.str "done")] "status" ≠ JsVal.str "in-progress" ∧
      prop [("status", JsVal.str "done")] "status" ≠ JsVal.str "resolved" :=
    ⟨fun e => absurd (JsVal.str.inj e) (by decide),
     fun e => absurd (JsVal.str.inj e) (by decide),
     fun e => absurd (JsVal.str.inj e) (by decide)⟩
  ⟨h, putFeedbackStatus_invalid pgDb _ sampleClock _ h⟩

/-! ## The content of a note -/

/-- C3: for every body, POST /notes writes as content (sixth parameter of its INSERT) the
body's content when that is non-null, else the body's text when that is non-null, else the
empty string; when the create succeeds the response carries the same content; and
PUT /notes/:noteId writes the same value as content (second parameter of its UPDATE). -/
theorem note_content_rule {σ : Type} (db : Db σ) (req : Req) (clk : Clock) (s : σ) :
    (app (some db) Route.postNotes req clk s).calls = [DbCall.query
      "INSERT INTO notes (user_id, module_id, chapter_id, title, topic, content, tags, created_at, updated_at) VALUES ($1, $2, $3, $4, $5, $6, $7, $8, $9) RETURNING *"
      [prop req.body "userId", prop req.body "moduleId", prop req.body "chapterId",
       prop req.body "title", prop req.body "topic", noteContentSpec req.body,
       jsOr (prop req.body "tags") (JsVal.arr []), JsVal.date (clk.date 0),
       JsVal.date (clk.date 1)]] ∧
    ((app (some db) Route.postNotes req clk s).response.status = 200 →
      ∃ id, (app (some db) Route.postNotes req clk s).response = ok (JsVal.obj [
        ("user_id", prop req.body "userId"), ("module_id", prop req.body "moduleId"),
        ("chapter_id", prop req.body "chapterId"), ("title", prop req.body "title"),
        ("topic", prop req.body "topic"), ("content", noteContentSpec req.body),
        ("tags", jsOr (prop req.body "tags") (JsVal.arr [])),
        ("created_at", JsVal.date (clk.date 0)), ("updated_at", JsVal.date (clk.date 1)),
        ("id", id)])) ∧
    (app (some db) Route.putNote req clk s).calls = [DbCall.query
      "UPDATE notes SET topic = $1, content = $2, tags = $3, updated_at = $4 WHERE id = $5"
      [prop req.body "topic", noteContentSpec req.body,
       jsOr (prop req.body "tags") (JsVal.arr []), JsVal.date (clk.date 0),
       prop req.params "noteId"]] := by
  rw [← jsCoalesce_content_eq_spec]
  simp only [app, ensureDBConnection, handler, postNotes, putNote, Prog.run]
  refine ⟨?_, ?_, ?_⟩
  · generalize db.exec s _ = r
    rcases r with ⟨(e | rows), s'⟩
    · rfl
    · cases rows <;> rfl
  · generalize db.exec s _ = r
    rcases r with ⟨(e | rows), s'⟩
    · intro h; simp [Prog.run, errorResponse] at h
    · cases rows with
      | nil => intro h; simp [Prog.run, errorResponse] at h
      | cons row rest => intro _; exact ⟨prop row "id", rfl⟩
  · generalize db.exec s _ = r
    rcases r with ⟨(e | rows), s'⟩ <;> rfl

/-- Witness of C3: a body with content null and a legacy text is created with that text. -/
theorem note_content_rule_witness :
    (app (some pgDb) Route.postNotes
        ⟨[], [], [("userId", JsVal.str "u1"), ("content", JsVal.null),
          ("text", JsVal.str "legacy")]⟩ sampleClock {}).response.status = 200 ∧
    ∃ id, (app (some pgDb) Route.postNotes
        ⟨[], [], [("userId", JsVal.str "u1"), ("content", JsVal.null),
          ("text", JsVal.str "legacy")]⟩ sampleClock {}).response = ok (JsVal.obj [
        ("user_id", JsVal.str "u1"), ("module_id", JsVal.undefined),
        ("chapter_id", JsVal.undefined), ("title", JsVal.undefined),
        ("topic", JsVal.undefined), ("content", JsVal.str "legacy"),
        ("tags", JsVal.arr []),
        ("created_at", JsVal.date 1000), ("updated_at", JsVal.date 1001),
        ("id", id)]) :=
  ⟨rfl, (note_content_rule pgDb
    ⟨[], [], [("userId", JsVal.str "u1"), ("content", JsVal.null),
      ("text", JsVal.str "legacy")]⟩ sampleClock {}).2.1 rfl⟩

/-! ## The defaults of a new module -/

/-- Counterexample to C4 as stated: a body that supplies estimated_time 0 and category "" is
stored, and echoed, with estimated_time 30 and category "General". -/
theorem postModules_falsy_counterexample :
    prop [("title", JsVal.str "T"), ("category", JsVal.str ""),
      ("estimated_time", JsVal.num 0)] "estimated_time" = JsVal.num 0 ∧
    prop [("title", JsVal.str "T"), ("category", JsVal.str ""),
      ("estimated_time", JsVal.num 0)] "category" = JsVal.str "" ∧
    app (some pgDb) Route.postModules
        ⟨[], [], [("title", JsVal.str "T"), ("category", JsVal.str ""),
          ("estimated_time", JsVal.num 0)]⟩ sampleClock {} =
      ⟨ok (JsVal.obj [
          ("title", JsVal.str "T"), ("description", JsVal.undefined),
          ("image_url", JsVal.undefined), ("category", JsVal.str "General"),
          ("difficulty", JsVal.str "beginner"), ("estimated_time", JsVal.num 30),
          ("tags", JsVal.arr []), ("created_at", JsVal.date 1000),
          ("updated_at", JsVal.date 1001), ("id", JsVal.num 1)]),
       { modules := [[
          ("id", JsVal.num 1), ("title", JsVal.str "T"), ("description", JsVal.null),
          ("image_url", JsVal.null), ("category", JsVal.str "General"),
          ("difficulty", JsVal.str "beginner"), ("estimated_time", JsVal.num 30),
          ("tags", JsVal.arr []), ("created_at", JsVal.date 1000),
          ("updated_at", JsVal.date 1001)]], nextId := 2 },
       [DbCall.query
          "INSERT INTO modules (title, description, image_url, category, difficulty, estimated_time, tags, created_at, updated_at) VALUES ($1, $2, $3, $4, $5, $6, $7, $8, $9) RETURNING *"
          [JsVal.str "T", JsVal.undefined, JsVal.undefined, JsVal.str "General",
           JsVal.str "beginner", JsVal.num 30, JsVal.arr [], JsVal.date 1000,
           JsVal.date 1001]]⟩ ∧
    JsVal.num 30 ≠ JsVal.num 0 ∧ JsVal.str "General" ≠ JsVal.str "" :=
  ⟨rfl, rfl, rfl, fun e => absurd (JsVal.num.inj e) (by decide),
    fun e => absurd (JsVal.str.inj e) (by decide)⟩

/-- C4 (amended): for every body, POST /modules stores (and on success echoes) category,
difficulty, estimated_time and tags as supplied when the supplied value is truthy, and as
the defaults "General", "beginner", 30 and [] when the field is omitted or its value is
null, false, 0 or the empty string. -/
theorem postModules_defaults {σ : Type} (db : Db σ) (req : Req) (clk : Clock) (s : σ) :
    (app (some db) Route.postModules req clk s).calls = [DbCall.query
      "INSERT INTO modules (title, description, image_url, category, difficulty, estimated_time, tags, created_at, updated_at) VALUES ($1, $2, $3, $4, $5, $6, $7, $8, $9) RETURNING *"
      [prop req.body "title", prop req.body "description", prop req.body "image_url",
       suppliedOr (prop req.body "category") (JsVal.str "General"),
       suppliedOr (prop req.body "difficulty") (JsVal.str "beginner"),
       suppliedOr (prop req.body "estimated_time") (JsVal.num 30),
       suppliedOr (prop req.body "tags") (JsVal.arr []),
       JsVal.date (clk.date 0), JsVal.date (clk.date 1)]] ∧
    ((app (some db) Route.postModules req clk s).response.status = 200 →
      ∃ id, (app (some db) Route.postModules req clk s).response = ok (JsVal.obj [
        ("title", prop req.body "title"), ("description", prop req.body "description"),
        ("image_url", prop req.body "image_url"),
        ("category", suppliedOr (prop req.body "category") (JsVal.str "General")),
        ("difficulty", suppliedOr (prop req.body "difficulty") (JsVal.str "beginner")),
        ("estimated_time", suppliedOr (prop req.body "estimated_time") (JsVal.num 30)),
        ("tags", suppliedOr (prop req.body "tags") (JsVal.arr [])),
        ("created_at", JsVal.date (clk.date 0)), ("updated_at", JsVal.date (clk.date 1)),
        ("id", id)])) := by
  simp only [← jsOr_eq_suppliedOr]
  simp only [app, ensureDBConnection, handler, postModules, Prog.run]
  refine ⟨?_, ?_⟩
  · generalize db.exec s _ = r
    rcases r with ⟨(e | rows), s'⟩
    · rfl
    · cases rows <;> rfl
  · generalize db.exec s _ = r
    rcases r with ⟨(e | rows), s'⟩
    · intro h; simp [Prog.run, errorResponse] at h
    · cases rows with
      | nil => intro h; simp [Prog.run, errorResponse] at h
      | cons row rest => intro _; exact ⟨prop row "id", rfl⟩

/-- Witness of C4 (amended): a supplied category is kept, a supplied estimated_time 0 becomes 30. -/
theorem postModules_defaults_witness :
    (app (some pgDb) Route.postModules
        ⟨[], [], [("title", JsVal.str "T"), ("category", JsVal.str "Trading"),
          ("estimated_time", JsVal.num 0)]⟩ sampleClock {}).response.status = 200 ∧
    ∃ id, (app (some pgDb) Route.postModules
        ⟨[], [], [("title", JsVal.str "T"), ("category", JsVal.str "Trading"),
          ("estimated_time", JsVal.num 0)]⟩ sampleClock {}).response = ok (JsVal.obj [
        ("title", JsVal.str "T"), ("description", JsVal.undefined),
        ("image_url", JsVal.undefined), ("category", JsVal.str "Trading"),
        ("difficulty", JsVal.str "beginner"), ("estimated_time", JsVal.num 30),
        ("tags", JsVal.arr []), ("created_at", JsVal.date 1000),
        ("updated_at", JsVal.date 1001), ("id", id)]) :=
  ⟨rfl, (postModules_defaults pgDb
    ⟨[], [], [("title", JsVal.str "T"), ("category", JsVal.str "Trading"),
      ("estimated_time", JsVal.num 0)]⟩ sampleClock {}).2 rfl⟩

/-! ## Objects and the reference store -/

theorem prop_setProp_self (o : JsObj) (k : String) (v : JsVal) : prop (setProp o k v) k = v := by
  induction o with
  | nil => simp [setProp, prop, List.lookup]
  | cons kv rest ih =>
    obtain ⟨k', v'⟩ := kv
    by_cases h : k' = k
    · simp [setProp, h, prop, List.lookup]
    · have h' : (k == k') = false := by simpa using fun e => h e.symm
      simp only [setProp, h, if_false]
      simp only [prop, List.lookup, h'] at ih ⊢
      exact ih

theorem prop_setProp_of_ne (o : JsObj) (k k' : String) (v : JsVal) (hne : k' ≠ k) :
    prop (setProp o k v) k' = prop o k' := by
  induction o with
  | nil =>
    have h' : (k' == k) = false := by simpa using hne
    simp [setProp, prop, List.lookup, h']
  | cons kv rest ih =>
    obtain ⟨k₁, v₁⟩ := kv
    by_cases h : k₁ = k
    · subst h
      have h' : (k' == k₁) = false := by simpa using hne
      simp [setProp, prop, List.lookup, h']
    · simp only [setProp, h, if_false]
      by_cases h2 : k' = k₁
      · subst h2; simp [prop, List.lookup]
      · have h' : (k' == k₁) = false := by simpa using h2
        simp only [prop, List.lookup, h'] at ih ⊢
        exact ih

theorem sqlEq_pgParam (a v : JsVal) : sqlEq a (pgParam v) = sqlEq a v := by
  cases v <;> cases a <;> rfl

theorem whereEq_pgParam (rows : List JsObj) (col : String) (v : JsVal) :
    whereEq rows col (pgParam v) = whereEq rows col v := by
  simp [whereEq, sqlEq_pgParam]

theorem pgExec_chapterById (s : Store) (v : JsVal) :
    pgExec s (DbCall.query "SELECT * FROM chapters WHERE id = $1" [v]) =
      (.ok (whereEq s.chapters "id" v), s) := by
  rw [← whereEq_pgParam]; rfl

theorem pgExec_moduleById (s : Store) (v : JsVal) :
    pgExec s (DbCall.query "SELECT * FROM modules WHERE id = $1" [v]) =
      (.ok (whereEq s.modules "id" v), s) := by
  rw [← whereEq_pgParam]; rfl

/-! ## The referenced chapter of `GET /chapters/:id` -/

/-- Counterexample to C5 as stated: when the module of the referenced chapter has the empty
title, moduleTitle is "Unknown Module", not the empty title; and a referenced_chapter of 0
that points to the existing chapter with id 0 yields no referencedChapterData at all. -/
theorem getChapterById_counterexample :
    (app (some pgDb) Route.getChapterById ⟨[("id", JsVal.str "c1")], [], []⟩ sampleClock
        { chapters := [
            [("id", JsVal.str "c1"), ("module_id", JsVal.str "m0"),
             ("referenced_chapter", JsVal.str "c2")],
            [("id", JsVal.str "c2"), ("module_id", JsVal.str "m1"),
             ("title", JsVal.str "Key Concepts")]],
          modules := [[("id", JsVal.str "m1"), ("title", JsVal.str ""),
            ("category", JsVal.str "Trading")]] }).response
      = ok (JsVal.obj [
        ("id", JsVal.str "c1"), ("module_id", JsVal.str "m0"),
        ("referenced_chapter", JsVal.str "c2"),
        ("referencedChapterData", JsVal.obj [
          ("id", JsVal.str "c2"), ("module_id", JsVal.str "m1"),
          ("title", JsVal.str "Key Concepts"),
          ("moduleTitle", JsVal.str "Unknown Module"),
          ("moduleCategory", JsVal.str "Trading")])]) ∧
    JsVal.str "Unknown Module" ≠ JsVal.str "" ∧
    (app (some pgDb) Route.getChapterById ⟨[("id", JsVal.str "1")], [], []⟩ sampleClock
        { chapters := [
            [("id", JsVal.num 1), ("module_id", JsVal.num 5),
             ("referenced_chapter", JsVal.num 0)],
            [("id", JsVal.num 0), ("module_id", JsVal.num 5)]],
          modules := [[("id", JsVal.num 5), ("title", JsVal.str "Crypto Basics")]] }).response
      = ok (JsVal.obj [
        ("id", JsVal.num 1), ("module_id", JsVal.num 5),
        ("referenced_chapter", JsVal.num 0)]) :=
  ⟨rfl, fun e => absurd (JsVal.str.inj e) (by decide), rfl⟩

/-- C5 (amended): in the reference store, when chapter C is the chapter with the requested id,
C.referenced_chapter is truthy and selects chapter X, and X.module_id selects module M, the
response of GET /chapters/:id is C with a referencedChapterData object in which moduleTitle
is M.title when that is truthy and "Unknown Module" otherwise, moduleCategory is M.category
when truthy and "General" otherwise, and every other field is the one of X; the store is
unchanged. -/
theorem getChapterById_referenced (s : Store) (id : String) (query body : JsObj) (clk : Clock)
    (C X M : JsObj) (restC restX restM : List JsObj)
    (hC : whereEq s.chapters "id" (JsVal.str id) = C :: restC)
    (hRef : (prop C "referenced_chapter").truthy = true)
    (hX : whereEq s.chapters "id" (prop C "referenced_chapter") = X :: restX)
    (hM : whereEq s.modules "id" (prop X "module_id") = M :: restM) :
    ∃ data : JsObj,
      (app (some pgDb) Route.getChapterById ⟨[("id", JsVal.str id)], query, body⟩ clk s).response =
        ok (JsVal.obj (setProp C "referencedChapterData" (JsVal.obj data))) ∧
      (app (some pgDb) Route.getChapterById ⟨[("id", JsVal.str id)], query, body⟩ clk s).store = s ∧
      prop data "moduleTitle" = suppliedOr (prop M "title") (JsVal.str "Unknown Module") ∧
      prop data "moduleCategory" = suppliedOr (prop M "category") (JsVal.str "General") ∧
      ∀ k : String, k ≠ "moduleTitle" → k ≠ "moduleCategory" → prop data k = prop X k := by
  refine ⟨referencedChapterData X (M :: restM), ?_, ?_, ?_, ?_, ?_⟩
  · have hid : prop [("id", JsVal.str id)] "id" = JsVal.str id := rfl
    have hp : ∀ v, param [v] 0 = pgParam v := fun _ => rfl
    simp only [app, ensureDBConnection, handler, getChapterById, Prog.run, pgDb, hid,
      pgExec_chapterById, pgExec_moduleById, hC, hRef, hX, hM, if_true, hp, whereEq_pgParam]
  · have hid : prop [("id", JsVal.str id)] "id" = JsVal.str id := rfl
    simp only [app, ensureDBConnection, handler, getChapterById, Prog.run, pgDb, hid,
      pgExec_chapterById, pgExec_moduleById, hC, hRef, hX, hM, if_true]
  · unfold referencedChapterData
    rw [prop_setProp_of_ne _ _ _ _ (by decide), prop_setProp_self, jsOr_eq_suppliedOr]
    rfl
  · unfold referencedChapterData
    rw [prop_setProp_self, jsOr_eq_suppliedOr]
    rfl
  · intro k h1 h2
    unfold referencedChapterData
    rw [prop_setProp_of_ne _ _ _ _ h2, prop_setProp_of_ne _ _ _ _ h1]
/-- Witness of C5 (amended): the sample chapter c1 refers to c2 of module m1. -/
theorem getChapterById_referenced_witness :
    ∃ data : JsObj,
      (app (some pgDb) Route.getChapterById ⟨[("id", JsVal.str "c1")], [], []⟩ sampleClock
        sampleStore).response =
        ok (JsVal.obj (setProp sampleChapter "referencedChapterData" (JsVal.obj data))) ∧
      (app (some pgDb) Route.getChapterById ⟨[("id", JsVal.str "c1")], [], []⟩ sampleClock
        sampleStore).store = sampleStore ∧
      prop data "moduleTitle" = suppliedOr (prop sampleModule "title") (JsVal.str "Unknown Module") ∧
      prop data "moduleCategory" = suppliedOr (prop sampleModule "category") (JsVal.str "General") ∧
      ∀ k : String, k ≠ "moduleTitle" → k ≠ "moduleCategory" → prop data k = prop sampleReferenced k :=
  getChapterById_referenced sampleStore "c1" [] [] sampleClock sampleChapter sampleReferenced
    sampleModule [] [] [] rfl rfl rfl rfl

/-! ## Onboarding status -/
theorem whereEq_null (rows : List JsObj) (col : String) : whereEq rows col JsVal.null = [] := by
  have h : ∀ a, sqlEq a JsVal.null = false := fun a => by cases a <;> rfl
  simp [whereEq, h]

theorem pgExec_selectOnboarding (s : Store) (v : JsVal) :
    pgExec s (DbCall.query "SELECT onboarding_completed FROM users WHERE user_id = $1" [v]) =
      (.ok ((whereEq s.users "user_id" v).map fun r =>
        [("onboarding_completed", prop r "onboarding_completed")]), s) := by
  rw [← whereEq_pgParam]; rfl

/-- C6: in the reference store (handle connected, every query succeeding), when no user row
has user_id u, GET /user/onboarding/u answers with status 200 and exactly
{onboardingCompleted: false}, and leaves the store as it was. -/
theorem getUserOnboarding_unknown_user (s : Store) (u : String) (query body : JsObj)
    (clk : Clock) (_h : whereEq s.users "user_id" (JsVal.str u) = []) :
    (app (some pgDb) Route.getUserOnboarding ⟨[("userId", JsVal.str u)], query, body⟩ clk
        s).response = ⟨200, Body.json (JsVal.obj [("onboardingCompleted", JsVal.bool false)])⟩ ∧
    (app (some pgDb) Route.getUserOnboarding ⟨[("userId", JsVal.str u)], query, body⟩ clk
        s).store = s := by
  have hid : prop [("userId", JsVal.str u)] "user_id" = JsVal.undefined := rfl
  have hn : whereEq s.users "user_id" JsVal.undefined = [] := by
    rw [← whereEq_pgParam]; exact whereEq_null _ _
  simp only [app, ensureDBConnection, handler, getUserOnboarding, Prog.run, pgDb, hid,
    pgExec_selectOnboarding, hn, List.map_nil, ok, and_self]

/-- Witness of C6: the sample store has no user u2. -/
theorem getUserOnboarding_unknown_user_witness :
    whereEq sampleStore.users "user_id" (JsVal.str "u2") = [] ∧
    (app (some pgDb) Route.getUserOnboarding ⟨[("userId", JsVal.str "u2")], [], []⟩ sampleClock
        sampleStore).response =
      ⟨200, Body.json (JsVal.obj [("onboardingCompleted", JsVal.bool false)])⟩ ∧
    (app (some pgDb) Route.getUserOnboarding ⟨[("userId", JsVal.str "u2")], [], []⟩ sampleClock
        sampleStore).store = sampleStore :=
  ⟨rfl, getUserOnboarding_unknown_user sampleStore "u2" [] [] sampleClock rfl⟩

/-! ## Path parameters read under another name -/

/-- C7 at a failing input: on the empty reference store, POST /user/onboarding for user u9
succeeds and stores the row of u9 with onboarding_completed true; the following
GET /user/onboarding/u9 queries with the key undefined and answers
{onboardingCompleted: false}. -/
theorem onboarding_roundtrip_lost :
    app (some pgDb) Route.postUserOnboarding
        ⟨[], [], [("user_id", JsVal.str "u9"), ("age", JsVal.num 25),
          ("domains", JsVal.arr [JsVal.str "stocks"]),
          ("experience", JsVal.str "beginner")]⟩ sampleClock {} =
      ⟨ok (JsVal.obj [("success", JsVal.bool true)]),
       { users := [[("user_id", JsVal.str "u9"), ("age", JsVal.num 25),
          ("domains", JsVal.arr [JsVal.str "stocks"]), ("experience", JsVal.str "beginner"),
          ("onboarding_completed", JsVal.bool true),
          ("recently_viewed_modules", JsVal.null), ("updated_at", JsVal.date 1000)]] },
       [DbCall.query
          "INSERT INTO users (user_id, age, domains, experience, onboarding_completed, updated_at) VALUES ($1, $2, $3, $4, $5, $6) ON CONFLICT (user_id) DO UPDATE SET age = $2, domains = $3, experience = $4, onboarding_completed = $5, updated_at = $6"
          [JsVal.str "u9", JsVal.num 25, JsVal.arr [JsVal.str "stocks"], JsVal.str "beginner",
           JsVal.bool true, JsVal.date 1000]]⟩ ∧
    app (some pgDb) Route.getUserOnboarding ⟨[("userId", JsVal.str "u9")], [], []⟩ sampleClock
        { users := [[("user_id", JsVal.str "u9"), ("age", JsVal.num 25),
          ("domains", JsVal.arr [JsVal.str "stocks"]), ("experience", JsVal.str "beginner"),
          ("onboarding_completed", JsVal.bool true),
          ("recently_viewed_modules", JsVal.null), ("updated_at", JsVal.date 1000)]] } =
      ⟨ok (JsVal.obj [("onboardingCompleted", JsVal.bool false)]),
       { users := [[("user_id", JsVal.str "u9"), ("age", JsVal.num 25),
          ("domains", JsVal.arr [JsVal.str "stocks"]), ("experience", JsVal.str "beginner"),
          ("onboarding_completed", JsVal.bool true),
          ("recently_viewed_modules", JsVal.null), ("updated_at", JsVal.date 1000)]] },
       [DbCall.query "SELECT onboarding_completed FROM users WHERE user_id = $1"
          [JsVal.undefined]]⟩ :=
  ⟨rfl, rfl⟩

/-- For every store and user id, the key of the query of GET /user/onboarding/:userId is
`undefined`: the handler reads `user_id`, the route binds `userId`. -/
theorem getUserOnboarding_key {σ : Type} (db : Db σ) (u : String) (query body : JsObj)
    (clk : Clock) (s : σ) :
    (app (some db) Route.getUserOnboarding ⟨[("userId", JsVal.str u)], query, body⟩ clk
        s).calls =
      [DbCall.query "SELECT onboarding_completed FROM users WHERE user_id = $1"
        [JsVal.undefined]] := by
  have hid : prop [("userId", JsVal.str u)] "user_id" = JsVal.undefined := rfl
  simp only [app, ensureDBConnection, handler, getUserOnboarding, Prog.run, hid]
  generalize db.exec s _ = r
  rcases r with ⟨(e | rows), s'⟩
  · rfl
  · cases rows <;> rfl

/-- C8 at a failing input: POST /modules/m1/chapters inserts and echoes a chapter whose
module_id is undefined (stored as null), and GET /modules/m1/chapters on the resulting store
returns no chapter. -/
theorem postModuleChapters_module_lost :
    app (some pgDb) Route.postModuleChapters
        ⟨[("moduleId", JsVal.str "m1")], [], [("title", JsVal.str "Intro")]⟩ sampleClock
        { modules := [sampleModule] } =
      ⟨ok (JsVal.obj [("module_id", JsVal.undefined), ("title", JsVal.str "Intro"),
          ("content", JsVal.undefined), ("video_url", JsVal.undefined),
          ("image_url", JsVal.null), ("referenced_chapter", JsVal.null),
          ("id", JsVal.num 1)]),
       { modules := [sampleModule],
         chapters := [[("id", JsVal.num 1), ("module_id", JsVal.null),
          ("title", JsVal.str "Intro"), ("content", JsVal.null), ("video_url", JsVal.null),
          ("image_url", JsVal.null), ("referenced_chapter", JsVal.null)]],
         nextId := 2 },
       [DbCall.query
          "INSERT INTO chapters (module_id, title, content, video_url, image_url, referenced_chapter) VALUES ($1, $2, $3, $4, $5, $6) RETURNING *"
          [JsVal.undefined, JsVal.str "Intro", JsVal.undefined, JsVal.undefined, JsVal.null,
           JsVal.null]]⟩ ∧
    (app (some pgDb) Route.getModuleChapters ⟨[("moduleId", JsVal.str "m1")], [], []⟩
        sampleClock
        { modules := [sampleModule],
          chapters := [[("id", JsVal.num 1), ("module_id", JsVal.null),
            ("title", JsVal.str "Intro"), ("content", JsVal.null), ("video_url", JsVal.null),
            ("image_url", JsVal.null), ("referenced_chapter", JsVal.null)]],
          nextId := 2 }).response = ok (JsVal.arr []) :=
  ⟨rfl, rfl⟩

/-- For every store, module id and body, the module_id that POST /modules/:moduleId/chapters
inserts is `undefined`: the handler reads `module_id`, the route binds `moduleId`. -/
theorem postModuleChapters_key {σ : Type} (db : Db σ) (m : String) (query body : JsObj)
    (clk : Clock) (s : σ) :
    (app (some db) Route.postModuleChapters ⟨[("moduleId", JsVal.str m)], query, body⟩ clk
        s).calls =
      [DbCall.query
        "INSERT INTO chapters (module_id, title, content, video_url, image_url, referenced_chapter) VALUES ($1, $2, $3, $4, $5, $6) RETURNING *"
        [JsVal.undefined, prop body "title", prop body "content", prop body "video_url",
         jsOr (prop body "image_url") JsVal.null,
         jsOr (prop body "referenced_chapter") JsVal.null]] := by
  have hid : prop [("moduleId", JsVal.str m)] "module_id" = JsVal.undefined := rfl
  simp only [app, ensureDBConnection, handler, postModuleChapters, Prog.run, hid]
  generalize db.exec s _ = r
  rcases r with ⟨(e | rows), s'⟩
  · rfl
  · cases rows <;> rfl

/-- C9 at a failing input: POST /user/recently-viewed/u1 upserts with the key undefined, so
the row of u1 is left as it was and a row without user id is added; GET
/user/recently-viewed/u1 queries with the key undefined and answers [] although u1 has a
list. -/
theorem recentlyViewed_key_lost :
    app (some pgDb) Route.postRecentlyViewed
        ⟨[("userId", JsVal.str "u1")], [],
          [("recentlyViewed", JsVal.arr [JsVal.str "m1"])]⟩ sampleClock sampleStore =
      ⟨ok (JsVal.obj [("success", JsVal.bool true)]),
       { sampleStore with users := sampleStore.users ++ [[
          ("user_id", JsVal.null), ("age", JsVal.null), ("domains", JsVal.null),
          ("experience", JsVal.null), ("onboarding_completed", JsVal.null),
          ("recently_viewed_modules", JsVal.arr [JsVal.str "m1"]),
          ("updated_at", JsVal.date 1000)]] },
       [DbCall.query
          "INSERT INTO users (user_id, recently_viewed_modules, updated_at) VALUES ($1, $2, $3) ON CONFLICT (user_id) DO UPDATE SET recently_viewed_modules = $2, updated_at = $3"
          [JsVal.undefined, JsVal.arr [JsVal.str "m1"], JsVal.date 1000]]⟩ ∧
    app (some pgDb) Route.getRecentlyViewed ⟨[("userId", JsVal.str "u1")], [], []⟩ sampleClock
        { sampleStore with users := [[
          ("user_id", JsVal.str "u1"),
          ("recently_viewed_modules", JsVal.arr [JsVal.str "m7"])]] } =
      ⟨ok (JsVal.arr []),
       { sampleStore with users := [[
          ("user_id", JsVal.str "u1"),
          ("recently_viewed_modules", JsVal.arr [JsVal.str "m7"])]] },
       [DbCall.query "SELECT recently_viewed_modules FROM users WHERE user_id = $1"
          [JsVal.undefined]]⟩ :=
  ⟨rfl, rfl⟩

/-- For every store, user id and list, the key of both store operations on
/user/recently-viewed/:userId is `undefined`, not the path parameter. -/
theorem recentlyViewed_key {σ : Type} (db : Db σ) (u : String) (L : List JsVal)
    (query body : JsObj) (clk : Clock) (s : σ) :
    (app (some db) Route.postRecentlyViewed
        ⟨[("userId", JsVal.str u)], query, [("recentlyViewed", JsVal.arr L)]⟩ clk s).calls =
      [DbCall.query
        "INSERT INTO users (user_id, recently_viewed_modules, updated_at) VALUES ($1, $2, $3) ON CONFLICT (user_id) DO UPDATE SET recently_viewed_modules = $2, updated_at = $3"
        [JsVal.undefined, JsVal.arr L, JsVal.date (clk.date 0)]] ∧
    (app (some db) Route.getRecentlyViewed ⟨[("userId", JsVal.str u)], query, body⟩ clk
        s).calls =
      [DbCall.query "SELECT recently_viewed_modules FROM users WHERE user_id = $1"
        [JsVal.undefined]] := by
  have hid : prop [("userId", JsVal.str u)] "user_id" = JsVal.undefined := rfl
  have hb : prop [("recentlyViewed", JsVal.arr L)] "recentlyViewed" = JsVal.arr L := rfl
  simp only [app, ensureDBConnection, handler, postRecentlyViewed, getRecentlyViewed, Prog.run,
    hid, hb, isArray]
  constructor
  · generalize db.exec s _ = r
    rcases r with ⟨(e | rows), s'⟩ <;> rfl
  · generalize db.exec s _ = r
    rcases r with ⟨(e | rows), s'⟩ <;> rfl
/-! ## The connection check -/

/-- Counterexample to C10 as stated: with the handle unset, GET /health and GET / answer with
status 200, not 500. -/
theorem health_without_handle_counterexample :
    app (none : Option (Db Store)) Route.getHealth ⟨[], [], []⟩ sampleClock {} =
      ⟨⟨200, Body.json (JsVal.obj [("status", JsVal.str "ok"),
          ("timestamp", JsVal.str "1970-01-01T00:00:01.000Z"),
          ("message", JsVal.str "Server is running")])⟩, {}, []⟩ ∧
    app (none : Option (Db Store)) Route.getRoot ⟨[], [], []⟩ sampleClock {} =
      ⟨⟨200, Body.text "Finance Learning API Running"⟩, {}, []⟩ ∧
    (200 : Nat) ≠ 500 :=
  ⟨rfl, rfl, by decide⟩

/-- C10 (amended): for every route other than GET / and GET /health and every request, with
the handle unset the response is status 500 with
{error: "Database connection failed", message: "Database not connected"}, no data-store
call is made, the store is unchanged and the outcome is the same whatever handler stands
behind the check (it is not run); GET / and GET /health are registered without the check and
answer without data-store calls whether the handle is set or not. -/
theorem ensureDBConnection_unset {σ : Type} (rt : Route) (req : Req) (clk : Clock) (s : σ)
    (hRoot : rt ≠ Route.getRoot) (hHealth : rt ≠ Route.getHealth) :
    app (none : Option (Db σ)) rt req clk s =
      ⟨⟨500, Body.json (JsVal.obj [
        ("error", JsVal.str "Database connection failed"),
        ("message", JsVal.str "Database not connected")])⟩, s, []⟩ ∧
    (∀ next : Db σ → σ → Outcome σ,
      ensureDBConnection none next s = app (none : Option (Db σ)) rt req clk s) ∧
    (∀ db : Option (Db σ), app db Route.getRoot req clk s = ⟨getRoot, s, []⟩) ∧
    (∀ db : Option (Db σ), app db Route.getHealth req clk s = ⟨getHealth clk, s, []⟩) := by
  refine ⟨?_, ?_, fun _ => rfl, fun _ => rfl⟩
  · cases rt <;> first | exact absurd rfl hRoot | exact absurd rfl hHealth | rfl
  · intro next
    cases rt <;> first | exact absurd rfl hRoot | exact absurd rfl hHealth | rfl

/-- Witness of C10 (amended): a complete review sent while the handle is unset. -/
theorem ensureDBConnection_unset_witness :
    (Route.postReviews ≠ Route.getRoot ∧ Route.postReviews ≠ Route.getHealth) ∧
    app (none : Option (Db Store)) Route.postReviews
        ⟨[], [], [("user_id", JsVal.str "u1"), ("user_name", JsVal.str "Ann"),
          ("text", JsVal.str "fine"), ("rating", JsVal.num 5)]⟩ sampleClock sampleStore =
      ⟨⟨500, Body.json (JsVal.obj [
        ("error", JsVal.str "Database connection failed"),
        ("message", JsVal.str "Database not connected")])⟩, sampleStore, []⟩ :=
  ⟨⟨by decide, by decide⟩,
    (ensureDBConnection_unset Route.postReviews _ sampleClock sampleStore
      (by decide) (by decide)).1⟩

/-! ## The module list -/
theorem mongoNewerFirst_total (a b : JsObj) :
    mongoNewerFirst a b = true ∨ mongoNewerFirst b a = true := by
  unfold mongoNewerFirst
  cases createdKey a <;> cases createdKey b <;> simp
  exact le_total _ _

theorem mongoNewerFirst_trans (a b c : JsObj) (hab : mongoNewerFirst a b = true)
    (hbc : mongoNewerFirst b c = true) : mongoNewerFirst a c = true := by
  unfold mongoNewerFirst at *
  cases ha : createdKey a <;> cases hb : createdKey b <;> cases hc : createdKey c <;>
    simp [ha, hb, hc] at hab hbc ⊢
  exact le_trans hbc hab

theorem sortCreatedDesc_sorted (rows : List JsObj) :
    (sortCreatedDesc rows).Pairwise (fun a b => mongoNewerFirst a b = true) :=
  @List.sorted_insertionSort _ (fun a b => mongoNewerFirst a b = true) _
    ⟨mongoNewerFirst_total⟩ ⟨mongoNewerFirst_trans⟩ rows

theorem sortCreatedDesc_perm (rows : List JsObj) : (sortCreatedDesc rows).Perm rows :=
  List.perm_insertionSort _ rows

mutual
theorem eq_of_beq : ∀ a b : JsVal, JsVal.beq a b = true → a = b
  | .undefined, b, h => by cases b <;> simp_all [JsVal.beq]
  | .null, b, h => by cases b <;> simp_all [JsVal.beq]
  | .bool x, b, h => by cases b <;> simp_all [JsVal.beq]
  | .num x, b, h => by cases b <;> simp_all [JsVal.beq]
  | .str x, b, h => by cases b <;> simp_all [JsVal.beq]
  | .date x, b, h => by cases b <;> simp_all [JsVal.beq]
  | .arr xs, b, h => by
    cases b with
    | arr ys => rw [eq_of_beqList xs ys (by simpa [JsVal.beq] using h)]
    | _ => simp [JsVal.beq] at h
  | .obj fs, b, h => by
    cases b with
    | obj gs => rw [eq_of_beqFields fs gs (by simpa [JsVal.beq] using h)]
    | _ => simp [JsVal.beq] at h
theorem eq_of_beqList : ∀ xs ys : List JsVal, JsVal.beqList xs ys = true → xs = ys
  | [], ys, h => by cases ys <;> simp_all [JsVal.beqList]
  | x :: xs, ys, h => by
    cases ys with
    | nil => simp [JsVal.beqList] at h
    | cons y ys =>
      simp only [JsVal.beqList, Bool.and_eq_true] at h
      rw [eq_of_beq x y h.1, eq_of_beqList xs ys h.2]
theorem eq_of_beqFields :
    ∀ fs gs : List (String × JsVal), JsVal.beqFields fs gs = true → fs = gs
  | [], gs, h => by cases gs <;> simp_all [JsVal.beqFields]
  | (k, x) :: fs, gs, h => by
    cases gs with
    | nil => simp [JsVal.beqFields] at h
    | cons g gs =>
      obtain ⟨l, y⟩ := g
      simp only [JsVal.beqFields, Bool.and_eq_true, beq_iff_eq] at h
      rw [h.1.1, eq_of_beq x y h.1.2, eq_of_beqFields fs gs h.2]
end

mutual
theorem beq_self : ∀ a : JsVal, JsVal.beq a a = true
  | .undefined => rfl
  | .null => rfl
  | .bool x => by simp [JsVal.beq]
  | .num x => by simp [JsVal.beq]
  | .str x => by simp [JsVal.beq]
  | .date x => by simp [JsVal.beq]
  | .arr xs => by simp [JsVal.beq, beqList_self xs]
  | .obj fs => by simp [JsVal.beq, beqFields_self fs]
theorem beqList_self : ∀ xs : List JsVal, JsVal.beqList xs xs = true
  | [] => rfl
  | x :: xs => by simp [JsVal.beqList, beq_self x, beqList_self xs]
theorem beqFields_self : ∀ fs : List (String × JsVal), JsVal.beqFields fs fs = true
  | [] => rfl
  | (k, x) :: fs => by simp [JsVal.beqFields, beq_self x, beqFields_self fs]
end

theorem beq_iff_same (a b : JsVal) : JsVal.beq a b = true ↔ a = b :=
  ⟨eq_of_beq a b, fun h => h ▸ beq_self a⟩

theorem pgExec_findModules (s : Store) (filter : JsObj) (h : filterAccepted filter = true) :
    pgExec s (DbCall.find "modules" filter [("created_at", JsVal.num (-1))]) =
      (.ok (sortCreatedDesc (findMatching s.modules filter)), s) := by
  have e : pgExec s (DbCall.find "modules" filter [("created_at", JsVal.num (-1))]) =
      if filterAccepted filter then
        resolved (sortCreatedDesc (findMatching s.modules filter)) s
      else rejected "unknown operator" s := rfl
  rw [e, h]; rfl

theorem findMatching_nil (rows : List JsObj) : findMatching rows [] = rows := by
  simp [findMatching]

theorem fieldMatches_of_not_obj (field c : JsVal) (hobj : ∀ fields, c ≠ JsVal.obj fields) :
    fieldMatches field c = some (mongoEq field c) := by
  cases c with
  | obj fields => exact absurd rfl (hobj fields)
  | _ => rfl

theorem findMatching_category (rows : List JsObj) (c : JsVal)
    (hobj : ∀ fields, c ≠ JsVal.obj fields) (ht : c.truthy = true)
    (hall : isAllSentinel c = false) :
    findMatching rows [("category", c)] = rows.filter (categorySelects c) := by
  unfold findMatching
  congr 1
  funext r
  cases c with
  | obj fields => exact absurd rfl (hobj fields)
  | undefined => simp [JsVal.truthy] at ht
  | null => simp [JsVal.truthy] at ht
  | _ =>
    simp only [List.all_cons, List.all_nil, Bool.and_true, fieldMatches, categorySelects, ht,
      hall, mongoEq, Bool.or_false, Bool.not_true, Bool.or_self, Bool.false_eq_true, if_false]
    generalize (JsVal.beq (prop r "category") _ ||
      match prop r "category" with
      | JsVal.arr xs => xs.any fun x => JsVal.beq x _
      | _ => false) = b
    cases b <;> rfl

theorem categorySelects_iff (c : JsVal) (r : JsObj) :
    categorySelects c r = true ↔
      (c.truthy = false ∨ c = JsVal.str "all" ∨ prop r "category" = c ∨
        ∃ xs, prop r "category" = JsVal.arr xs ∧ c ∈ xs) := by
  have hall_iff : isAllSentinel c = true ↔ c = JsVal.str "all" := by
    cases c <;> simp [isAllSentinel]
  have hany : ∀ xs : List JsVal, (xs.any fun x => JsVal.beq x c) = true ↔ c ∈ xs := by
    intro xs
    simp only [List.any_eq_true]
    constructor
    · rintro ⟨x, hx, hxc⟩
      exact (eq_of_beq x c hxc) ▸ hx
    · intro hx
      exact ⟨c, hx, beq_self c⟩
  have harr : ((match prop r "category" with
      | JsVal.arr xs => xs.any fun x => JsVal.beq x c
      | _ => false) = true) ↔ ∃ xs, prop r "category" = JsVal.arr xs ∧ c ∈ xs := by
    cases prop r "category" with
    | arr xs =>
      constructor
      · intro h; exact ⟨xs, rfl, (hany xs).mp h⟩
      · rintro ⟨ys, hy, hc⟩
        cases hy
        exact (hany _).mpr hc
    | _ =>
      constructor
      · intro h; exact absurd h (by simp)
      · rintro ⟨ys, hy, _⟩; cases hy
  unfold categorySelects
  by_cases ht : c.truthy = true
  · by_cases hall : isAllSentinel c = true
    · rw [if_pos (by simp [hall])]
      exact ⟨fun _ => Or.inr (Or.inl (hall_iff.mp hall)), fun _ => rfl⟩
    · rw [if_neg (by simp [ht, hall]), Bool.or_eq_true, beq_iff_same, harr]
      constructor
      · rintro (h | h)
        · exact Or.inr (Or.inr (Or.inl h))
        · exact Or.inr (Or.inr (Or.inr h))
      · rintro (h | h | h | h)
        · rw [ht] at h; exact absurd h (by decide)
        · exact absurd (hall_iff.mpr h) hall
        · exact Or.inl h
        · exact Or.inr h
  · have hf : c.truthy = false := by simpa using ht
    rw [if_pos (by simp [hf])]
    exact ⟨fun _ => Or.inl hf, fun _ => rfl⟩

theorem strictNeStr_all (c : JsVal) : strictNeStr c "all" = !isAllSentinel c := by
  cases c with
  | str t => by_cases h : t = "all" <;> simp [strictNeStr, isAllSentinel, h]
  | _ => rfl

/-- Counterexample to C11 as stated, on the three sample modules: with `?category=` (given,
not "all") every module is returned, not only the one whose category is the empty string;
with `?category[$ne]=Trading` the query value is an object, which `find` reads as an
operator, so the module whose category is not Trading is returned although no category
equals that object; with `?category=Trading` the module whose category is a list
containing "Trading" is returned too, although its category does not equal "Trading". -/
theorem getModules_category_counterexample :
    ((app (some pgDb) Route.getModules ⟨[], [("category", JsVal.str "")], []⟩ sampleClock
        { modules := sampleModules }).response =
      ok (rowsValue [moduleListed, moduleUncategorised, moduleTrading]) ∧
     sampleModules.filter (categorySelectsSpec (JsVal.str "")) = [moduleUncategorised] ∧
     ¬ List.Perm [moduleListed, moduleUncategorised, moduleTrading]
        (sampleModules.filter (categorySelectsSpec (JsVal.str "")))) ∧
    ((app (some pgDb) Route.getModules
        ⟨[], [("category", JsVal.obj [("$ne", JsVal.str "Trading")])], []⟩ sampleClock
        { modules := sampleModules }).response =
      ok (rowsValue [moduleUncategorised]) ∧
     sampleModules.filter
        (categorySelectsSpec (JsVal.obj [("$ne", JsVal.str "Trading")])) = [] ∧
     ¬ List.Perm [moduleUncategorised]
        (sampleModules.filter
          (categorySelectsSpec (JsVal.obj [("$ne", JsVal.str "Trading")])))) ∧
    ((app (some pgDb) Route.getModules ⟨[], [("category", JsVal.str "Trading")], []⟩
        sampleClock { modules := sampleModules }).response =
      ok (rowsValue [moduleListed, moduleTrading]) ∧
     sampleModules.filter (categorySelectsSpec (JsVal.str "Trading")) = [moduleTrading] ∧
     ¬ List.Perm [moduleListed, moduleTrading]
        (sampleModules.filter (categorySelectsSpec (JsVal.str "Trading")))) :=
  ⟨⟨rfl, rfl, fun h => absurd h.length_eq (by decide)⟩,
   ⟨rfl, rfl, fun h => absurd h.length_eq (by decide)⟩,
   ⟨rfl, rfl, fun h => absurd h.length_eq (by decide)⟩⟩

/-- C11 (amended): in the reference store, for every store state and every category query
value c that is not an object, GET /modules returns exactly the modules whose category
equals c or is an array with c among its elements when c is given, non-empty and not
"all", and all modules when c is absent, empty or "all"; in each case the list is
ordered by created_at descending (modules without a creation instant last) and the store
is unchanged. -/
theorem getModules_filter_sorted (s : Store) (params query body : JsObj) (clk : Clock)
    (hobj : ∀ fields, prop query "category" ≠ JsVal.obj fields) :
    ∃ L : List JsObj,
      (app (some pgDb) Route.getModules ⟨params, query, body⟩ clk s).response =
        ok (rowsValue L) ∧
      (app (some pgDb) Route.getModules ⟨params, query, body⟩ clk s).store = s ∧
      L.Perm (s.modules.filter (categorySelects (prop query "category"))) ∧
      L.Pairwise (fun a b => mongoNewerFirst a b = true) ∧
      ∀ r : JsObj, categorySelects (prop query "category") r = true ↔
        ((prop query "category").truthy = false ∨ prop query "category" = JsVal.str "all" ∨
          prop r "category" = prop query "category" ∨
          ∃ xs, prop r "category" = JsVal.arr xs ∧ prop query "category" ∈ xs) := by
  by_cases hcond : ((prop query "category").truthy &&
      strictNeStr (prop query "category") "all") = true
  · have ht : (prop query "category").truthy = true := by
      simp only [Bool.and_eq_true] at hcond; exact hcond.1
    have hall : isAllSentinel (prop query "category") = false := by
      simp only [Bool.and_eq_true, strictNeStr_all] at hcond
      simpa using hcond.2
    have hacc : filterAccepted [("category", prop query "category")] = true := by
      simp [filterAccepted, fieldMatches_of_not_obj _ _ hobj]
    refine ⟨sortCreatedDesc (s.modules.filter (categorySelects (prop query "category"))),
      ?_, ?_, sortCreatedDesc_perm _, sortCreatedDesc_sorted _, categorySelects_iff _⟩
    · simp only [app, ensureDBConnection, handler, getModules, hcond, if_true, Prog.run, pgDb,
        pgExec_findModules _ _ hacc, findMatching_category _ _ hobj ht hall]
    · simp only [app, ensureDBConnection, handler, getModules, hcond, if_true, Prog.run, pgDb,
        pgExec_findModules _ _ hacc]
  · have hsel : ∀ r, categorySelects (prop query "category") r = true := by
      intro r
      unfold categorySelects
      rw [if_pos]
      rw [strictNeStr_all] at hcond
      cases h1 : (prop query "category").truthy <;>
        cases h2 : isAllSentinel (prop query "category") <;> simp_all
    have hf : s.modules.filter (categorySelects (prop query "category")) = s.modules := by
      simp [hsel]
    have hacc : filterAccepted [] = true := rfl
    refine ⟨sortCreatedDesc s.modules, ?_, ?_, ?_, sortCreatedDesc_sorted _,
      categorySelects_iff _⟩
    · simp only [app, ensureDBConnection, handler, getModules, hcond, Prog.run, pgDb,
        Bool.false_eq_true, if_false, pgExec_findModules _ _ hacc, findMatching_nil]
    · simp only [app, ensureDBConnection, handler, getModules, hcond, Prog.run, pgDb,
        Bool.false_eq_true, if_false, pgExec_findModules _ _ hacc]
    · rw [hf]; exact sortCreatedDesc_perm _

/-- Witness of C11 (amended): `?category=Trading` on the three sample modules. -/
theorem getModules_filter_sorted_witness :
    (∀ fields, prop [("category", JsVal.str "Trading")] "category" ≠ JsVal.obj fields) ∧
    ∃ L : List JsObj,
      (app (some pgDb) Route.getModules ⟨[], [("category", JsVal.str "Trading")], []⟩
        sampleClock { modules := sampleModules }).response = ok (rowsValue L) ∧
      L.Perm [moduleTrading, moduleListed] ∧
      L.Pairwise (fun a b => mongoNewerFirst a b = true) :=
  have h : ∀ fields, prop [("category", JsVal.str "Trading")] "category" ≠ JsVal.obj fields :=
    fun _ e => by cases e
  ⟨h, by
    obtain ⟨L, h1, _, h3, h4, _⟩ := getModules_filter_sorted { modules := sampleModules } []
      [("category", JsVal.str "Trading")] [] sampleClock h
    exact ⟨L, h1, h3, h4⟩⟩

/-! ## Feedback -/
theorem pgExec_insertFeedback (s : Store) (ps : List JsVal) :
    pgExec s (DbCall.query
      "INSERT INTO feedback (user_id, user_name, user_email, subject, message, rating, category, status, created_at, updated_at) VALUES ($1, $2, $3, $4, $5, $6, $7, $8, $9, $10) RETURNING *"
      ps) =
    insertReturning s
      ["user_id", "user_name", "user_email", "subject", "message", "rating", "category",
       "status", "created_at", "updated_at"] ps
      (fun s row => { s with feedback := s.feedback ++ [row] }) := by
  rfl

theorem pgExec_updateFeedbackStatus (s : Store) (ps : List JsVal) :
    pgExec s (DbCall.query "UPDATE feedback SET status = $1, updated_at = $2 WHERE id = $3"
      ps) =
    (.ok [], { s with feedback := updateWhere s.feedback "id" (param ps 2) [
      ("status", param ps 0), ("updated_at", param ps 1)] }) := by
  rfl

theorem pgExec_deleteFeedback (s : Store) (ps : List JsVal) :
    pgExec s (DbCall.query "DELETE FROM feedback WHERE id = $1" ps) =
    (.ok [], { s with feedback := deleteWhere s.feedback "id" (param ps 0) }) := by
  rfl

theorem includesStr_statusAllowed (v : JsVal) :
    includesStr ["new", "in-progress", "resolved"] v = statusAllowed v := by
  cases v with
  | str t =>
    simp only [includesStr, statusAllowed, List.contains, List.elem]
    cases t == "new" <;> cases t == "in-progress" <;> cases t == "resolved" <;> rfl
  | _ => rfl

/-- C12: in the reference store, if every stored feedback record has a status among "new",
"in-progress", "resolved", the same holds after any request to POST /feedback,
PUT /feedback/:id/status or DELETE /feedback/:id, whatever the parameters and body; and a
successful POST /feedback adds one record, of status "new", whatever status the body
carries. -/
theorem feedback_status_invariant (s : Store) (rt : Route) (req : Req) (clk : Clock)
    (hrt : rt = Route.postFeedback ∨ rt = Route.putFeedbackStatus ∨ rt = Route.deleteFeedback)
    (hinv : feedbackStatusesAllowed s) :
    feedbackStatusesAllowed (app (some pgDb) rt req clk s).store ∧
    (rt = Route.postFeedback → (app (some pgDb) rt req clk s).response.status = 200 →
      ∃ row, (app (some pgDb) rt req clk s).store.feedback = s.feedback ++ [row] ∧
        prop row "status" = JsVal.str "new") := by
  rcases hrt with h | h | h <;> subst h
  · by_cases hv : (!(prop req.body "user_id").truthy || !(prop req.body "user_name").truthy
        || !(prop req.body "message").truthy) = true
    · simp only [app, ensureDBConnection, handler, postFeedback, hv, if_true, Prog.run]
      exact ⟨hinv, fun _ h => absurd h (by simp [errorResponse])⟩
    · simp only [app, ensureDBConnection, handler, postFeedback, hv, Prog.run, pgDb,
        pgExec_insertFeedback, insertReturning]
      refine ⟨?_, fun _ _ => ⟨_, rfl, rfl⟩⟩
      intro r hr
      simp only [Prog.run] at hr
      rcases List.mem_append.mp hr with hr | hr
      · exact hinv r hr
      · rw [List.mem_singleton.mp hr]; rfl
  · refine ⟨?_, fun h => absurd h (by decide)⟩
    by_cases hv : includesStr ["new", "in-progress", "resolved"] (prop req.body "status") = true
    · have hp : pgParam (prop req.body "status") = prop req.body "status" := by
        cases hs : prop req.body "status" with
        | str t => rfl
        | _ => rw [hs] at hv; simp [includesStr] at hv
      simp only [app, ensureDBConnection, handler, putFeedbackStatus, hv, Prog.run, pgDb,
        pgExec_updateFeedbackStatus]
      intro r hr
      simp only [Prog.run, updateWhere, List.mem_map, Bool.not_true, Bool.false_eq_true,
        if_false] at hr
      obtain ⟨r₀, hr₀, rfl⟩ := hr
      split
      · have hpar : param [prop req.body "status", JsVal.date (clk.date 0),
            prop req.params "id"] 0 = pgParam (prop req.body "status") := rfl
        simp only [assign, List.foldl, hpar, hp]
        rw [prop_setProp_of_ne _ _ _ _ (by decide), prop_setProp_self,
          ← includesStr_statusAllowed]
        exact hv
      · exact hinv r₀ hr₀
    · simp only [app, ensureDBConnection, handler, putFeedbackStatus, hv, Prog.run]
      exact hinv
  · refine ⟨?_, fun h => absurd h (by decide)⟩
    simp only [app, ensureDBConnection, handler, deleteFeedback, Prog.run, pgDb,
      pgExec_deleteFeedback]
    intro r hr
    simp only [Prog.run, deleteWhere] at hr
    exact hinv r (List.mem_of_mem_filter hr)
/-- Witness of C12: a feedback body carrying the status "closed" is stored with status
"new". -/
theorem feedback_status_invariant_witness :
    (Route.postFeedback = Route.postFeedback ∨ Route.postFeedback = Route.putFeedbackStatus ∨
      Route.postFeedback = Route.deleteFeedback) ∧
    feedbackStatusesAllowed sampleFeedbackStore ∧
    feedbackStatusesAllowed
      (app (some pgDb) Route.postFeedback ⟨[], [], sampleFeedbackBody⟩ sampleClock
        sampleFeedbackStore).store ∧
    ∃ row, (app (some pgDb) Route.postFeedback ⟨[], [], sampleFeedbackBody⟩ sampleClock
        sampleFeedbackStore).store.feedback = sampleFeedbackStore.feedback ++ [row] ∧
      prop row "status" = JsVal.str "new" :=
  have h : feedbackStatusesAllowed sampleFeedbackStore := fun r hr => by
    rw [List.mem_singleton.mp hr]; rfl
  ⟨Or.inl rfl, h,
    (feedback_status_invariant sampleFeedbackStore Route.postFeedback
      ⟨[], [], sampleFeedbackBody⟩ sampleClock (Or.inl rfl) h).1,
    (feedback_status_invariant sampleFeedbackStore Route.postFeedback
      ⟨[], [], sampleFeedbackBody⟩ sampleClock (Or.inl rfl) h).2 rfl rfl⟩

theorem postFeedback_validation_core {σ : Type} (db : Db σ) (req : Req) (clk : Clock) (s : σ) :
    (((app (some db) Route.postFeedback req clk s).response =
        ⟨400, Body.json (JsVal.obj
          [("error", JsVal.str "Missing required fields: user_id, user_name, message")])⟩ ∧
      (app (some db) Route.postFeedback req clk s).calls = []) ↔
      ((prop req.body "user_id").truthy = false ∨ (prop req.body "user_name").truthy = false ∨
        (prop req.body "message").truthy = false)) ∧
    ((prop req.body "user_id").truthy = true → (prop req.body "user_name").truthy = true →
      (prop req.body "message").truthy = true →
      (app (some db) Route.postFeedback req clk s).calls = [DbCall.query
        "INSERT INTO feedback (user_id, user_name, user_email, subject, message, rating, category, status, created_at, updated_at) VALUES ($1, $2, $3, $4, $5, $6, $7, $8, $9, $10) RETURNING *"
        [prop req.body "user_id", prop req.body "user_name",
         suppliedOr (prop req.body "user_email") (JsVal.str ""),
         suppliedOr (prop req.body "subject") (JsVal.str "General Feedback"),
         prop req.body "message",
         suppliedOr (prop req.body "rating") (JsVal.num 0),
         suppliedOr (prop req.body "category") (JsVal.str "general"),
         JsVal.str "new", JsVal.date (clk.date 0), JsVal.date (clk.date 1)]]) ∧
    ((app (some db) Route.postFeedback req clk s).response.status = 200 →
      ∃ id, (app (some db) Route.postFeedback req clk s).response = ok (JsVal.obj [
        ("user_id", prop req.body "user_id"), ("user_name", prop req.body "user_name"),
        ("user_email", suppliedOr (prop req.body "user_email") (JsVal.str "")),
        ("subject", suppliedOr (prop req.body "subject") (JsVal.str "General Feedback")),
        ("message", prop req.body "message"),
        ("rating", suppliedOr (prop req.body "rating") (JsVal.num 0)),
        ("category", suppliedOr (prop req.body "category") (JsVal.str "general")),
        ("status", JsVal.str "new"),
        ("created_at", JsVal.date (clk.date 0)), ("updated_at", JsVal.date (clk.date 1)),
        ("id", id)])) := by
  simp only [← jsOr_eq_suppliedOr]
  by_cases hv : (!(prop req.body "user_id").truthy || !(prop req.body "user_name").truthy
      || !(prop req.body "message").truthy) = true
  · have hf : (prop req.body "user_id").truthy = false ∨
        (prop req.body "user_name").truthy = false ∨
        (prop req.body "message").truthy = false := by
      simpa [or_assoc] using hv
    simp only [app, ensureDBConnection, handler, postFeedback, hv, if_true, Prog.run,
      errorResponse]
    refine ⟨⟨fun _ => hf, fun _ => ⟨trivial, trivial⟩⟩, ?_, fun h => absurd h (by decide)⟩
    intro h1 h2 h3
    rcases hf with h | h | h <;> simp_all
  · have ht : (prop req.body "user_id").truthy = true ∧
        (prop req.body "user_name").truthy = true ∧
        (prop req.body "message").truthy = true := by
      simpa [and_assoc] using hv
    simp only [app, ensureDBConnection, handler, postFeedback, hv, Prog.run]
    generalize db.exec s _ = r
    rcases r with ⟨(e | rows), s'⟩
    · refine ⟨⟨fun h => ?_, fun h => ?_⟩, fun _ _ _ => rfl, fun h => ?_⟩
      · exact absurd h.2 (by simp [Prog.run])
      · rcases h with h | h | h <;> simp_all
      · simp [Prog.run, errorResponse] at h
    · cases rows with
      | nil =>
        refine ⟨⟨fun h => ?_, fun h => ?_⟩, fun _ _ _ => rfl, fun h => ?_⟩
        · exact absurd h.2 (by simp [Prog.run])
        · rcases h with h | h | h <;> simp_all
        · simp [Prog.run, errorResponse] at h
      | cons row rest =>
        refine ⟨⟨fun h => ?_, fun h => ?_⟩, fun _ _ _ => rfl, fun _ => ⟨prop row "id", rfl⟩⟩
        · exact absurd h.2 (by simp [Prog.run])
        · rcases h with h | h | h <;> simp_all

/-- C13: for every store and body, POST /feedback answers 400 with
{error: "Missing required fields: user_id, user_name, message"} and makes no data-store
call exactly when one of user_id, user_name, message is falsy; when all three are truthy it
makes the one INSERT with user_email, subject, rating, category defaulted to "",
"General Feedback", 0, "general" where omitted (or falsy) and status "new"; when that
INSERT resolves with a row, the response is status 200 with that record plus the id of the
returned row, and the store is the one the INSERT left; when it is rejected or returns no
row the response is 500 {error: "Failed to add feedback"}. -/
theorem postFeedback_validation {σ : Type} (db : Db σ) (req : Req) (clk : Clock) (s : σ) :
    (((app (some db) Route.postFeedback req clk s).response =
        ⟨400, Body.json (JsVal.obj
          [("error", JsVal.str "Missing required fields: user_id, user_name, message")])⟩ ∧
      (app (some db) Route.postFeedback req clk s).calls = []) ↔
      ((prop req.body "user_id").truthy = false ∨ (prop req.body "user_name").truthy = false ∨
        (prop req.body "message").truthy = false)) ∧
    ((prop req.body "user_id").truthy = true → (prop req.body "user_name").truthy = true →
      (prop req.body "message").truthy = true →
      (app (some db) Route.postFeedback req clk s).calls = [DbCall.query
        "INSERT INTO feedback (user_id, user_name, user_email, subject, message, rating, category, status, created_at, updated_at) VALUES ($1, $2, $3, $4, $5, $6, $7, $8, $9, $10) RETURNING *"
        [prop req.body "user_id", prop req.body "user_name",
         suppliedOr (prop req.body "user_email") (JsVal.str ""),
         suppliedOr (prop req.body "subject") (JsVal.str "General Feedback"),
         prop req.body "message",
         suppliedOr (prop req.body "rating") (JsVal.num 0),
         suppliedOr (prop req.body "category") (JsVal.str "general"),
         JsVal.str "new", JsVal.date (clk.date 0), JsVal.date (clk.date 1)]]) ∧
    ((app (some db) Route.postFeedback req clk s).response.status = 200 →
      ∃ id, (app (some db) Route.postFeedback req clk s).response = ok (JsVal.obj [
        ("user_id", prop req.body "user_id"), ("user_name", prop req.body "user_name"),
        ("user_email", suppliedOr (prop req.body "user_email") (JsVal.str "")),
        ("subject", suppliedOr (prop req.body "subject") (JsVal.str "General Feedback")),
        ("message", prop req.body "message"),
        ("rating", suppliedOr (prop req.body "rating") (JsVal.num 0)),
        ("category", suppliedOr (prop req.body "category") (JsVal.str "general")),
        ("status", JsVal.str "new"),
        ("created_at", JsVal.date (clk.date 0)), ("updated_at", JsVal.date (clk.date 1)),
        ("id", id)])) ∧
    ((prop req.body "user_id").truthy = true → (prop req.body "user_name").truthy = true →
      (prop req.body "message").truthy = true →
      ∀ (row : JsObj) (rest : List JsObj) (s' : σ),
        db.exec s (DbCall.query
          "INSERT INTO feedback (user_id, user_name, user_email, subject, message, rating, category, status, created_at, updated_at) VALUES ($1, $2, $3, $4, $5, $6, $7, $8, $9, $10) RETURNING *"
          [prop req.body "user_id", prop req.body "user_name",
           suppliedOr (prop req.body "user_email") (JsVal.str ""),
           suppliedOr (prop req.body "subject") (JsVal.str "General Feedback"),
           prop req.body "message",
           suppliedOr (prop req.body "rating") (JsVal.num 0),
           suppliedOr (prop req.body "category") (JsVal.str "general"),
           JsVal.str "new", JsVal.date (clk.date 0), JsVal.date (clk.date 1)]) =
          (.ok (row :: rest), s') →
        (app (some db) Route.postFeedback req clk s).response = ok (JsVal.obj [
          ("user_id", prop req.body "user_id"), ("user_name", prop req.body "user_name"),
          ("user_email", suppliedOr (prop req.body "user_email") (JsVal.str "")),
          ("subject", suppliedOr (prop req.body "subject") (JsVal.str "General Feedback")),
          ("message", prop req.body "message"),
          ("rating", suppliedOr (prop req.body "rating") (JsVal.num 0)),
          ("category", suppliedOr (prop req.body "category") (JsVal.str "general")),
          ("status", JsVal.str "new"),
          ("created_at", JsVal.date (clk.date 0)), ("updated_at", JsVal.date (clk.date 1)),
          ("id", prop row "id")]) ∧
        (app (some db) Route.postFeedback req clk s).store = s') ∧
    ((prop req.body "user_id").truthy = true → (prop req.body "user_name").truthy = true →
      (prop req.body "message").truthy = true →
      ∀ (res : Except Err (List JsObj)) (s' : σ),
        db.exec s (DbCall.query
          "INSERT INTO feedback (user_id, user_name, user_email, subject, message, rating, category, status, created_at, updated_at) VALUES ($1, $2, $3, $4, $5, $6, $7, $8, $9, $10) RETURNING *"
          [prop req.body "user_id", prop req.body "user_name",
           suppliedOr (prop req.body "user_email") (JsVal.str ""),
           suppliedOr (prop req.body "subject") (JsVal.str "General Feedback"),
           prop req.body "message",
           suppliedOr (prop req.body "rating") (JsVal.num 0),
           suppliedOr (prop req.body "category") (JsVal.str "general"),
           JsVal.str "new", JsVal.date (clk.date 0), JsVal.date (clk.date 1)]) =
          (res, s') →
        (∀ row rest, res ≠ .ok (row :: rest)) →
        (app (some db) Route.postFeedback req clk s).response =
          ⟨500, Body.json (JsVal.obj [("error", JsVal.str "Failed to add feedback")])⟩) := by
  have hvalid : (prop req.body "user_id").truthy = true →
      (prop req.body "user_name").truthy = true → (prop req.body "message").truthy = true →
      (!(prop req.body "user_id").truthy || !(prop req.body "user_name").truthy
        || !(prop req.body "message").truthy) = false := by
    intro h1 h2 h3
    simp [h1, h2, h3]
  refine ⟨(postFeedback_validation_core db req clk s).1,
    (postFeedback_validation_core db req clk s).2.1,
    (postFeedback_validation_core db req clk s).2.2, ?_, ?_⟩
  · intro h1 h2 h3 row rest s' hexec
    simp only [← jsOr_eq_suppliedOr] at hexec ⊢
    simp only [app, ensureDBConnection, handler, postFeedback, hvalid h1 h2 h3, Prog.run]
    generalize hr : db.exec s _ = r
    have hr' : r = (.ok (row :: rest), s') := hr.symm.trans hexec
    subst hr'
    exact ⟨rfl, rfl⟩
  · intro h1 h2 h3 res s' hexec hres
    simp only [← jsOr_eq_suppliedOr] at hexec
    simp only [app, ensureDBConnection, handler, postFeedback, hvalid h1 h2 h3, Prog.run]
    generalize hr : db.exec s _ = r
    have hr' : r = (res, s') := hr.symm.trans hexec
    subst hr'
    rcases res with e | (_ | ⟨row, rest⟩)
    · rfl
    · rfl
    · exact absurd rfl (hres row rest)

/-- Witness of C13: a complete body without user_email, subject, rating, category, on the
reference store, which returns the new row with the id 8. -/
theorem postFeedback_validation_witness :
    ((prop sampleFeedbackBody "user_id").truthy = true ∧
      (prop sampleFeedbackBody "user_name").truthy = true ∧
      (prop sampleFeedbackBody "message").truthy = true) ∧
    (app (some pgDb) Route.postFeedback ⟨[], [], sampleFeedbackBody⟩ sampleClock
        sampleFeedbackStore).response = ok (JsVal.obj [
        ("user_id", JsVal.str "u2"), ("user_name", JsVal.str "Ann"),
        ("user_email", JsVal.str ""), ("subject", JsVal.str "General Feedback"),
        ("message", JsVal.str "more charts please"), ("rating", JsVal.num 0),
        ("category", JsVal.str "general"), ("status", JsVal.str "new"),
        ("created_at", JsVal.date 1000), ("updated_at", JsVal.date 1001),
        ("id", JsVal.num 8)]) :=
  ⟨⟨rfl, rfl, rfl⟩,
    ((postFeedback_validation pgDb ⟨[], [], sampleFeedbackBody⟩ sampleClock
      sampleFeedbackStore).2.2.2.1 rfl rfl rfl _ _ _ rfl).1⟩

/-! ## The recently viewed list -/

/-- C14: for every store and body, POST /user/recently-viewed/:userId answers 400 with
{error: "recentlyViewed must be an array"} and makes no data-store call exactly when the
body's recentlyViewed is not an array (absent, null, string, number, object); for every
array, the empty one included, it makes the upsert call with that array. -/
theorem postRecentlyViewed_array_check {σ : Type} (db : Db σ) (req : Req) (clk : Clock)
    (s : σ) :
    (((app (some db) Route.postRecentlyViewed req clk s).response =
        ⟨400, Body.json (JsVal.obj
          [("error", JsVal.str "recentlyViewed must be an array")])⟩ ∧
      (app (some db) Route.postRecentlyViewed req clk s).calls = []) ↔
      ∀ L : List JsVal, prop req.body "recentlyViewed" ≠ JsVal.arr L) ∧
    (∀ L : List JsVal, prop req.body "recentlyViewed" = JsVal.arr L →
      (app (some db) Route.postRecentlyViewed req clk s).calls = [DbCall.query
        "INSERT INTO users (user_id, recently_viewed_modules, updated_at) VALUES ($1, $2, $3) ON CONFLICT (user_id) DO UPDATE SET recently_viewed_modules = $2, updated_at = $3"
        [prop req.params "user_id", JsVal.arr L, JsVal.date (clk.date 0)]]) := by
  by_cases hv : isArray (prop req.body "recentlyViewed") = true
  · obtain ⟨L, hL⟩ : ∃ L, prop req.body "recentlyViewed" = JsVal.arr L := by
      cases hs : prop req.body "recentlyViewed" with
      | arr xs => exact ⟨xs, rfl⟩
      | _ => rw [hs] at hv; simp [isArray] at hv
    simp only [app, ensureDBConnection, handler, postRecentlyViewed, hv, Prog.run]
    generalize db.exec s _ = r
    rcases r with ⟨(e | rows), s'⟩
    · refine ⟨⟨fun h => absurd h.2 (by simp [Prog.run]), fun h => absurd hL (h L)⟩, ?_⟩
      intro M hM
      simp [Prog.run, hM]
    · refine ⟨⟨fun h => absurd h.2 (by simp [Prog.run]), fun h => absurd hL (h L)⟩, ?_⟩
      intro M hM
      simp [Prog.run, hM]
  · have hn : ∀ L : List JsVal, prop req.body "recentlyViewed" ≠ JsVal.arr L := by
      intro L hL
      rw [hL] at hv
      exact hv rfl
    simp only [app, ensureDBConnection, handler, postRecentlyViewed, hv, Prog.run,
      errorResponse]
    exact ⟨⟨fun _ => hn, fun _ => ⟨trivial, trivial⟩⟩, fun L hL => absurd hL (hn L)⟩

/-- Witness of C14: the empty array goes to the upsert. -/
theorem postRecentlyViewed_array_check_witness :
    prop [("recentlyViewed", JsVal.arr [])] "recentlyViewed" = JsVal.arr [] ∧
    (app (some pgDb) Route.postRecentlyViewed
        ⟨[("userId", JsVal.str "u1")], [], [("recentlyViewed", JsVal.arr [])]⟩ sampleClock
        sampleStore).calls = [DbCall.query
        "INSERT INTO users (user_id, recently_viewed_modules, updated_at) VALUES ($1, $2, $3) ON CONFLICT (user_id) DO UPDATE SET recently_viewed_modules = $2, updated_at = $3"
        [JsVal.undefined, JsVal.arr [], JsVal.date 1000]] :=
  ⟨rfl, (postRecentlyViewed_array_check pgDb
    ⟨[("userId", JsVal.str "u1")], [], [("recentlyViewed", JsVal.arr [])]⟩ sampleClock
    sampleStore).2 [] rfl⟩

/-! ## What every run of a handler satisfies -/
theorem always_of_run {σ : Type} (db : Db σ) (Q : Except Err (List JsObj) → Prop)
    (P : Response → Prop) (hQ : ∀ s c, Q (db.exec s c).1) :
    ∀ (p : Prog) (s : σ), p.Always Q P → P (p.run db s).response
  | .done _, _, h => h
  | .call c k, s, h => always_of_run db Q P hQ (k (db.exec s c).1) (db.exec s c).2
      (h _ (hQ s c))

theorem errorBlind_same_run {σ : Type} (db₁ db₂ : Db σ)
    (hsim : ∀ s c, sameUpToError (db₁.exec s c) (db₂.exec s c)) :
    ∀ (p : Prog) (s : σ), p.ErrorBlind → p.run db₁ s = p.run db₂ s
  | .done _, _, _ => rfl
  | .call c k, s, h => by
    obtain ⟨hs, hr⟩ := hsim s c
    have hk : k (db₁.exec s c).1 = k (db₂.exec s c).1 := by
      revert hr
      cases h₁ : (db₁.exec s c).1 <;> cases h₂ : (db₂.exec s c).1 <;> intro hr
      · exact h.1 _ _
      · exact absurd hr (by simp)
      · exact absurd hr (by simp)
      · simp at hr; rw [hr]
    have ih := errorBlind_same_run db₁ db₂ hsim (k (db₁.exec s c).1) (db₁.exec s c).2
      (h.2 _)
    simp only [Prog.run]
    rw [ih, hk, hs]
/-! ## The shape of error responses -/
theorem handler_error_shape {σ : Type} (h : Db σ) (rt : Route) (req : Req) (clk : Clock) :
    (handler h rt req clk).Always hasStringMessage (fun r =>
      r.status = 200 ∨ isErrorShape r.body = true ∨
        (rt = Route.postUserOnboarding ∧ ∃ d, r = ⟨500, Body.json (JsVal.obj [
          ("error", JsVal.str "Failed to save onboarding"), ("details", d)])⟩)) := by
  cases rt <;>
    simp only [handler, getRoot, getHealth, getTest, getModules, getCategories,
      getModuleChapters, getChapters, getChapterById, getNotes, getUserNotes, postNotes,
      putNote, deleteNote, getBookmarks, postBookmarks, deleteBookmark, getReviews,
      postReviews, postUserOnboarding, getUserOnboarding, getRecentlyViewed,
      postRecentlyViewed, postModules, putModule, deleteModule, postModuleChapters,
      putChapter, deleteChapter, getFeedback, postFeedback, putFeedbackStatus,
      deleteFeedback]
  case getTest =>
    intro res hres
    rcases res with e | rows
    · obtain ⟨m, hm⟩ := hres e rfl
      simp [Prog.Always, hm, isErrorShape]
    · simp [Prog.Always, ok]
  all_goals
    repeat' first
      | (intro res hres; rcases res with e | (_ | ⟨row, rest⟩))
      | split
      | simp [Prog.Always, errorResponse, ok, isErrorShape]

/-- Counterexample to C15 as stated: when the store rejects the upsert of POST
/user/onboarding, the 500 body carries the field details next to error, which is not the
shape {error, message?}; and a request whose body does not parse as JSON is answered with
status 400 and an HTML page, which is no object at all. -/
theorem onboarding_error_details_counterexample :
    ((server (some (failingDb "duplicate key value violates unique constraint"))
        Route.postUserOnboarding [] []
        (ParsedBody.object [("user_id", JsVal.str "u9"), ("age", JsVal.num 25),
          ("domains", JsVal.arr [JsVal.str "stocks"]),
          ("experience", JsVal.str "beginner")]) sampleClock {}).response =
      ⟨500, Body.json (JsVal.obj [
        ("error", JsVal.str "Failed to save onboarding"),
        ("details", JsVal.str "duplicate key value violates unique constraint")])⟩ ∧
     isErrorShape (Body.json (JsVal.obj [
        ("error", JsVal.str "Failed to save onboarding"),
        ("details", JsVal.str "duplicate key value violates unique constraint")])) = false) ∧
    ((server (some pgDb) Route.postReviews [] []
        (ParsedBody.failure "<pre>Bad Request</pre>") sampleClock sampleStore).response =
      ⟨400, Body.text "<pre>Bad Request</pre>"⟩ ∧
     isErrorShape (Body.text "<pre>Bad Request</pre>") = false) :=
  ⟨⟨rfl, rfl⟩, ⟨rfl, rfl⟩⟩

theorem error_responses_shape_core {σ : Type} (db : Option (Db σ)) (rt : Route) (req : Req)
    (clk : Clock) (s : σ)
    (hmsg : ∀ h, db = some h → ∀ s c, hasStringMessage (h.exec s c).1)
    (hstatus : (app db rt req clk s).response.status = 400 ∨
      (app db rt req clk s).response.status = 404 ∨
      (app db rt req clk s).response.status = 500) :
    isErrorShape (app db rt req clk s).response.body = true ∨
      (rt = Route.postUserOnboarding ∧ ∃ d, (app db rt req clk s).response =
        ⟨500, Body.json (JsVal.obj [
          ("error", JsVal.str "Failed to save onboarding"), ("details", d)])⟩) := by
  have key : (app db rt req clk s).response.status = 200 ∨
      isErrorShape (app db rt req clk s).response.body = true ∨
      (rt = Route.postUserOnboarding ∧ ∃ d, (app db rt req clk s).response =
        ⟨500, Body.json (JsVal.obj [
          ("error", JsVal.str "Failed to save onboarding"), ("details", d)])⟩) := by
    cases db with
    | none => cases rt <;> simp [app, ensureDBConnection, getRoot, getHealth, ok, isErrorShape]
    | some h =>
      have hrun := always_of_run h hasStringMessage _ (hmsg h rfl) (handler h rt req clk) s
        (handler_error_shape h rt req clk)
      cases rt <;> first | exact Or.inl rfl | exact hrun
  rcases key with h200 | hshape
  · rcases hstatus with h | h | h <;> rw [h200] at h <;> exact absurd h (by decide)
  · exact hshape

/-- C15 (amended): for every route and every request whose body `express.json()` has parsed,
provided the values the store throws carry a string message, a response of status 400, 404
or 500 has a body that is an object with a string field error, optionally a string field
message, and no other field; the one exception is the 500 response of POST
/user/onboarding, given when the store rejects the upsert, whose body has the fields error
("Failed to save onboarding") and details, the message of the error the upsert threw. -/
theorem error_responses_shape {σ : Type} (db : Option (Db σ)) (rt : Route)
    (params query body : JsObj) (clk : Clock) (s : σ)
    (hmsg : ∀ h, db = some h → ∀ s c, hasStringMessage (h.exec s c).1)
    (hstatus :
      (server db rt params query (ParsedBody.object body) clk s).response.status = 400 ∨
      (server db rt params query (ParsedBody.object body) clk s).response.status = 404 ∨
      (server db rt params query (ParsedBody.object body) clk s).response.status = 500) :
    isErrorShape (server db rt params query (ParsedBody.object body) clk s).response.body
        = true ∨
      (rt = Route.postUserOnboarding ∧ ∃ (h : Db σ) (e : Err) (s' : σ), db = some h ∧
        h.exec s (DbCall.query
          "INSERT INTO users (user_id, age, domains, experience, onboarding_completed, updated_at) VALUES ($1, $2, $3, $4, $5, $6) ON CONFLICT (user_id) DO UPDATE SET age = $2, domains = $3, experience = $4, onboarding_completed = $5, updated_at = $6"
          [prop body "user_id", prop body "age", prop body "domains",
           prop body "experience", JsVal.bool true, JsVal.date (clk.date 0)]) =
          (.error e, s') ∧
        (server db rt params query (ParsedBody.object body) clk s).response =
          ⟨500, Body.json (JsVal.obj [
            ("error", JsVal.str "Failed to save onboarding"),
            ("details", e.message)])⟩) := by
  change (app db rt ⟨params, query, body⟩ clk s).response.status = 400 ∨
      (app db rt ⟨params, query, body⟩ clk s).response.status = 404 ∨
      (app db rt ⟨params, query, body⟩ clk s).response.status = 500 at hstatus
  change isErrorShape (app db rt ⟨params, query, body⟩ clk s).response.body = true ∨
      (rt = Route.postUserOnboarding ∧ ∃ (h : Db σ) (e : Err) (s' : σ), db = some h ∧
        h.exec s _ = (.error e, s') ∧
        (app db rt ⟨params, query, body⟩ clk s).response = _)
  by_cases hrt : rt = Route.postUserOnboarding
  · subst hrt
    cases db with
    | none => exact Or.inl rfl
    | some h =>
      by_cases hv : (!(prop body "user_id").truthy || !(prop body "age").truthy
          || !(prop body "domains").truthy || !(prop body "experience").truthy) = true
      · left
        simp only [app, ensureDBConnection, handler, postUserOnboarding, hv, if_true,
          Prog.run, errorResponse]
        rfl
      · simp only [app, ensureDBConnection, handler, postUserOnboarding, hv,
          Prog.run] at hstatus ⊢
        generalize hr : h.exec s _ = r at hstatus ⊢
        rcases r with ⟨(e | rows), s'⟩
        · exact Or.inr ⟨by trivial, h, e, s', by trivial, hr, by trivial⟩
        · rcases hstatus with hs | hs | hs <;> exact absurd hs (by simp [Prog.run, ok])
  · rcases error_responses_shape_core db rt ⟨params, query, body⟩ clk s hmsg hstatus with
      hshape | ⟨hrt', _⟩
    · exact Or.inl hshape
    · exact absurd hrt' hrt

/-- Witness of C15 (amended): GET /test on a store that rejects every call. -/
theorem error_responses_shape_witness :
    (server (some (failingDb "connection refused")) Route.getTest [] []
        (ParsedBody.object []) sampleClock {}).response =
      ⟨500, Body.json (JsVal.obj [
        ("error", JsVal.str "Database connection failed"),
        ("message", JsVal.str "connection refused")])⟩ ∧
    isErrorShape (server (some (failingDb "connection refused")) Route.getTest [] []
        (ParsedBody.object []) sampleClock {}).response.body = true :=
  ⟨rfl, (error_responses_shape (some (failingDb "connection refused")) Route.getTest
    [] [] [] sampleClock {}
    (by
      intro h hh s c e he
      cases hh
      injection he with he
      subst he
      exact ⟨_, rfl⟩)
    (Or.inr (Or.inr rfl))).resolve_right (fun hr => absurd hr.1 (by decide))⟩

/-! ## Thrown errors and the response -/
theorem handler_errorBlind {σ : Type} (h : Db σ) (rt : Route) (req : Req) (clk : Clock)
    (hOnb : rt ≠ Route.postUserOnboarding) (hTest : rt ≠ Route.getTest) :
    (handler h rt req clk).ErrorBlind := by
  cases rt <;>
    simp only [handler, getRoot, getHealth, getModules, getCategories,
      getModuleChapters, getChapters, getChapterById, getNotes, getUserNotes, postNotes,
      putNote, deleteNote, getBookmarks, postBookmarks, deleteBookmark, getReviews,
      postReviews, getUserOnboarding, getRecentlyViewed,
      postRecentlyViewed, postModules, putModule, deleteModule, postModuleChapters,
      putChapter, deleteChapter, getFeedback, postFeedback, putFeedbackStatus,
      deleteFeedback]
  case postUserOnboarding => exact absurd rfl hOnb
  case getTest => exact absurd rfl hTest
  all_goals
    repeat' first
      | split
      | (refine ⟨fun _ _ => rfl, fun res => ?_⟩; rcases res with e | (_ | ⟨row, rest⟩))
      | simp [Prog.ErrorBlind]

theorem handler_handle_independent {σ : Type} (h₁ h₂ : Db σ) (rt : Route) (req : Req)
    (clk : Clock) (hTest : rt ≠ Route.getTest) :
    handler h₁ rt req clk = handler h₂ rt req clk := by
  cases rt <;> first | exact absurd rfl hTest | rfl
theorem app_some {σ : Type} (h : Db σ) (rt : Route) (req : Req) (clk : Clock) (s : σ) :
    app (some h) rt req clk s = (handler h rt req clk).run h s := by
  cases rt <;> rfl

/-- Counterexample to C16 as stated: on GET /test two runs that differ only in the message
of the thrown error give different bodies, since the catch block echoes error.message. -/
theorem test_error_message_counterexample :
    (∀ s c, sameUpToError ((failingDb "timeout").exec s c)
      ((failingDb "authentication failed").exec s c)) ∧
    (app (some (failingDb "timeout")) Route.getTest ⟨[], [], []⟩ sampleClock {}).response =
      ⟨500, Body.json (JsVal.obj [
        ("error", JsVal.str "Database connection failed"),
        ("message", JsVal.str "timeout")])⟩ ∧
    (app (some (failingDb "authentication failed")) Route.getTest ⟨[], [], []⟩ sampleClock
        {}).response =
      ⟨500, Body.json (JsVal.obj [
        ("error", JsVal.str "Database connection failed"),
        ("message", JsVal.str "authentication failed")])⟩ ∧
    (app (some (failingDb "timeout")) Route.getTest ⟨[], [], []⟩ sampleClock {}).response ≠
      (app (some (failingDb "authentication failed")) Route.getTest ⟨[], [], []⟩ sampleClock
        {}).response := by
  refine ⟨fun _ _ => ⟨rfl, trivial⟩, rfl, rfl, ?_⟩
  intro h
  have h' : (⟨500, Body.json (JsVal.obj [
        ("error", JsVal.str "Database connection failed"),
        ("message", JsVal.str "timeout")])⟩ : Response) =
      ⟨500, Body.json (JsVal.obj [
        ("error", JsVal.str "Database connection failed"),
        ("message", JsVal.str "authentication failed")])⟩ := h
  simp at h'

/-- C16 (amended): for every route other than POST /user/onboarding and GET /test, two runs
of the same request on stores that answer every call alike except for the value thrown give
the same response, status and body. -/
theorem store_error_not_disclosed {σ : Type} (db₁ db₂ : Db σ) (rt : Route) (req : Req)
    (clk : Clock) (s : σ)
    (hOnb : rt ≠ Route.postUserOnboarding) (hTest : rt ≠ Route.getTest)
    (hsim : ∀ s c, sameUpToError (db₁.exec s c) (db₂.exec s c)) :
    (app (some db₁) rt req clk s).response = (app (some db₂) rt req clk s).response := by
  rw [app_some, app_some, handler_handle_independent db₁ db₂ rt req clk hTest,
    errorBlind_same_run db₁ db₂ hsim _ s (handler_errorBlind db₂ rt req clk hOnb hTest)]

/-- Witness of C16 (amended): GET /reviews on two stores that reject with different
messages. -/
theorem store_error_not_disclosed_witness :
    (∀ s c, sameUpToError ((failingDb "timeout").exec s c)
      ((failingDb "authentication failed").exec s c)) ∧
    (app (some (failingDb "timeout")) Route.getReviews ⟨[], [], []⟩ sampleClock
        {}).response = errorResponse 500 "Failed to fetch reviews" ∧
    (app (some (failingDb "timeout")) Route.getReviews ⟨[], [], []⟩ sampleClock
        {}).response =
      (app (some (failingDb "authentication failed")) Route.getReviews ⟨[], [], []⟩
        sampleClock {}).response :=
  ⟨fun _ _ => ⟨rfl, trivial⟩, rfl,
    store_error_not_disclosed (failingDb "timeout") (failingDb "authentication failed")
      Route.getReviews ⟨[], [], []⟩ sampleClock {} (by decide) (by decide)
      (fun _ _ => ⟨rfl, trivial⟩)⟩

/-! ## Creating a module twice -/
theorem pgExec_insertModule (s : Store) (ps : List JsVal) :
    pgExec s (DbCall.query
      "INSERT INTO modules (title, description, image_url, category, difficulty, estimated_time, tags, created_at, updated_at) VALUES ($1, $2, $3, $4, $5, $6, $7, $8, $9) RETURNING *"
      ps) =
    insertReturning s
      ["title", "description", "image_url", "category", "difficulty", "estimated_time", "tags",
       "created_at", "updated_at"] ps
      (fun s row => { s with modules := s.modules ++ [row] }) := by
  rfl

theorem postModules_on_pgDb (s : Store) (req : Req) (clk : Clock) :
    ∃ row : JsObj, prop row "id" = JsVal.num s.nextId ∧
      app (some pgDb) Route.postModules req clk s =
        ⟨ok (JsVal.obj (setProp (moduleOf req.body clk) "id" (JsVal.num s.nextId))),
         { s with modules := s.modules ++ [row], nextId := s.nextId + 1 },
         (app (some pgDb) Route.postModules req clk s).calls⟩ := by
  simp only [app, ensureDBConnection, handler, postModules, Prog.run, pgDb,
    pgExec_insertModule, insertReturning]
  refine ⟨_, ?_, rfl⟩
  rfl

/-- C17: (every store) POST /modules makes exactly one data-store call, the INSERT of the
record built from the body, with no lookup by title or content before it, and when that
INSERT resolves with a row the response is the record plus the id of that row, so the id in
the response is the one the store generated; (reference store, whose id generator is
modelled from the spec) for every body and store state, two consecutive calls with the same
body both succeed, the module table grows by exactly two records, the two responses carry
different generated ids and agree on title, description, image_url, category, difficulty,
estimated_time and tags; and when the counter is ahead of the table, both ids also differ
from the id of every module stored before. -/
theorem postModules_twice (s : Store) (req : Req) (clk₁ clk₂ : Clock) :
    (∀ (σ : Type) (db : Db σ) (t : σ) (clk : Clock),
      (app (some db) Route.postModules req clk t).calls = [DbCall.query
        "INSERT INTO modules (title, description, image_url, category, difficulty, estimated_time, tags, created_at, updated_at) VALUES ($1, $2, $3, $4, $5, $6, $7, $8, $9) RETURNING *"
        [prop (moduleOf req.body clk) "title", prop (moduleOf req.body clk) "description",
         prop (moduleOf req.body clk) "image_url", prop (moduleOf req.body clk) "category",
         prop (moduleOf req.body clk) "difficulty",
         prop (moduleOf req.body clk) "estimated_time", prop (moduleOf req.body clk) "tags",
         prop (moduleOf req.body clk) "created_at",
         prop (moduleOf req.body clk) "updated_at"]] ∧
      ∀ (row : JsObj) (rest : List JsObj) (t' : σ),
        db.exec t (DbCall.query
          "INSERT INTO modules (title, description, image_url, category, difficulty, estimated_time, tags, created_at, updated_at) VALUES ($1, $2, $3, $4, $5, $6, $7, $8, $9) RETURNING *"
          [prop (moduleOf req.body clk) "title", prop (moduleOf req.body clk) "description",
           prop (moduleOf req.body clk) "image_url", prop (moduleOf req.body clk) "category",
           prop (moduleOf req.body clk) "difficulty",
           prop (moduleOf req.body clk) "estimated_time", prop (moduleOf req.body clk) "tags",
           prop (moduleOf req.body clk) "created_at",
           prop (moduleOf req.body clk) "updated_at"]) = (.ok (row :: rest), t') →
        (app (some db) Route.postModules req clk t).response =
          ok (JsVal.obj (setProp (moduleOf req.body clk) "id" (prop row "id"))) ∧
        (app (some db) Route.postModules req clk t).store = t') ∧
    ∃ o₁ o₂ : JsObj,
      (app (some pgDb) Route.postModules req clk₁ s).response = ok (JsVal.obj o₁) ∧
      (app (some pgDb) Route.postModules req clk₂
        (app (some pgDb) Route.postModules req clk₁ s).store).response = ok (JsVal.obj o₂) ∧
      (app (some pgDb) Route.postModules req clk₂
        (app (some pgDb) Route.postModules req clk₁ s).store).store.modules.length =
        s.modules.length + 2 ∧
      prop o₁ "id" ≠ prop o₂ "id" ∧
      (∀ k ∈ ["title", "description", "image_url", "category", "difficulty",
        "estimated_time", "tags"], prop o₁ k = prop o₂ k) ∧
      (modulesBelowCounter s →
        (∀ r ∈ s.modules, prop r "id" ≠ prop o₁ "id" ∧ prop r "id" ≠ prop o₂ "id") ∧
        modulesBelowCounter (app (some pgDb) Route.postModules req clk₂
          (app (some pgDb) Route.postModules req clk₁ s).store).store) := by
  constructor
  · intro σ db t clk
    simp only [app, ensureDBConnection, handler, postModules, Prog.run]
    constructor
    · generalize db.exec t _ = r
      rcases r with ⟨(e | rows), t'⟩
      · rfl
      · cases rows <;> rfl
    · intro row rest t' hexec
      generalize hr : db.exec t _ = r
      have hr' : r = (.ok (row :: rest), t') := hr.symm.trans hexec
      subst hr'
      exact ⟨rfl, rfl⟩
  · obtain ⟨row₁, hid₁, h₁⟩ := postModules_on_pgDb s req clk₁
    obtain ⟨row₂, hid₂, h₂⟩ := postModules_on_pgDb
      { s with modules := s.modules ++ [row₁], nextId := s.nextId + 1 } req clk₂
    refine ⟨setProp (moduleOf req.body clk₁) "id" (JsVal.num s.nextId),
      setProp (moduleOf req.body clk₂) "id" (JsVal.num (s.nextId + 1 : Nat)),
      ?_, ?_, ?_, ?_, ?_, ?_⟩
    · rw [h₁]
    · rw [h₁]; simp only; rw [h₂]
    · rw [h₁]; simp only; rw [h₂]; simp
    · rw [prop_setProp_self, prop_setProp_self]
      intro h
      have := JsVal.num.inj h
      omega
    · intro k hk
      simp only [List.mem_cons, List.mem_singleton, List.not_mem_nil, or_false] at hk
      rcases hk with rfl | rfl | rfl | rfl | rfl | rfl | rfl <;> rfl
    · intro hinv
      constructor
      · intro r hr
        obtain ⟨i, hi, hlt⟩ := hinv r hr
        have hlt' : i < s.nextId := hlt
        rw [prop_setProp_self, prop_setProp_self, hi]
        constructor
        · intro h
          have := JsVal.num.inj h
          omega
        · intro h
          have := JsVal.num.inj h
          omega
      · rw [h₁]; simp only; rw [h₂]
        intro r hr
        simp only [List.mem_append, List.mem_singleton] at hr
        rcases hr with (hr | hr) | hr
        · obtain ⟨i, hi, hlt⟩ := hinv r hr
          have hlt' : i < s.nextId := hlt
          exact ⟨i, hi, by show i < s.nextId + 1 + 1; omega⟩
        · subst hr
          exact ⟨s.nextId, hid₁, by show s.nextId < s.nextId + 1 + 1; omega⟩
        · subst hr
          exact ⟨s.nextId + 1, hid₂, by show s.nextId + 1 < s.nextId + 1 + 1; omega⟩

/-- Witness of C17: on a store that holds the module with id 1 and whose counter stands at
2, the same body posted twice gives the ids 2 and 3, both different from the stored id. -/
theorem postModules_twice_witness :
    modulesBelowCounter { modules := [moduleTrading], nextId := 2 } ∧
    (app (some pgDb) Route.postModules ⟨[], [], [("title", JsVal.str "T")]⟩ sampleClock
        { modules := [moduleTrading], nextId := 2 }).response =
      ok (JsVal.obj (setProp (moduleOf [("title", JsVal.str "T")] sampleClock) "id"
        (JsVal.num 2))) ∧
    ∃ o₁ o₂ : JsObj,
      (app (some pgDb) Route.postModules ⟨[], [], [("title", JsVal.str "T")]⟩ sampleClock
        { modules := [moduleTrading], nextId := 2 }).response = ok (JsVal.obj o₁) ∧
      (app (some pgDb) Route.postModules ⟨[], [], [("title", JsVal.str "T")]⟩ sampleClock
        (app (some pgDb) Route.postModules ⟨[], [], [("title", JsVal.str "T")]⟩ sampleClock
          { modules := [moduleTrading], nextId := 2 }).store).response = ok (JsVal.obj o₂) ∧
      prop o₁ "id" ≠ prop o₂ "id" ∧
      ∀ r ∈ [moduleTrading], prop r "id" ≠ prop o₁ "id" ∧ prop r "id" ≠ prop o₂ "id" :=
  have hinv : modulesBelowCounter { modules := [moduleTrading], nextId := 2 } :=
    fun r hr => by
      rw [List.mem_singleton.mp hr]
      exact ⟨1, rfl, by decide⟩
  ⟨hinv,
    ((postModules_twice { modules := [moduleTrading], nextId := 2 }
      ⟨[], [], [("title", JsVal.str "T")]⟩ sampleClock sampleClock).1
        Store pgDb { modules := [moduleTrading], nextId := 2 } sampleClock).2 _ _ _ rfl |>.1,
    by
      obtain ⟨o₁, o₂, h1, h2, _, h4, _, h6⟩ :=
        (postModules_twice { modules := [moduleTrading], nextId := 2 }
          ⟨[], [], [("title", JsVal.str "T")]⟩ sampleClock sampleClock).2
      exact ⟨o₁, o₂, h1, h2, h4, (h6 hinv).1⟩⟩

end FinanceApi
